import Mathlib

/-!
# Verification of the Grid1 multi-model AI risk-scoring pipeline

Shallow embedding of `src/ai_engine` (preprocessing, the five scoring
models, the fusion engine and the pipeline orchestrator), translated
function by function from the Python source.

Embedding conventions:
* Python floats are modelled as exact rationals (`ℚ`) wherever the code
  performs only field operations and comparisons; values produced through
  `math.sqrt` (rolling standard deviation, Pearson correlation, cosine
  similarity, Euclidean distance) are modelled in `ℝ` with `Real.sqrt`.
  Pipeline *state* only ever stores raw input-derived rationals, so the
  state transition function is fully computable.
* `datetime` values are modelled by their parse result: a parseable
  timestamp is a triple (unix seconds, hour, weekday); an unparseable
  string is the constructor `RTs.unparseable`.  `datetime.now()` is an
  oracle parameter `now` threaded into each `analyze` call (the source
  calls it at most a few microseconds apart within one call, which we
  collapse into a single value).
* Python `round(x, 3)` is modelled as rounding to the nearest multiple of
  1/1000 (`pyRound3`); the banker's tie-break of CPython differs from
  Mathlib's `round` only at exact midpoints, which no result here hits.
* Reason / explanation strings are kept structurally, but interpolated
  numeric formatting (`f"{x:.2f}"`) is not reproduced.
-/

namespace Grid1

open scoped Classical

/-! ## Raw input data model (`preprocessing.DataPreprocessor._validate_input`) -/

/-- A raw JSON-ish field value: numeric, or present but non-numeric. -/
inductive RVal where
  | num (q : ℚ)
  | nonNumeric
deriving DecidableEq, Repr

/-- A raw `breaker_status` value: the two legal strings, or anything else. -/
inductive RBreaker where
  | bon
  | boff
  | invalid
deriving DecidableEq, Repr

/-- A raw `timestamp` value, abstracted by its `datetime.fromisoformat`
parse result: unix seconds, hour (0-23) and weekday (0-6), or an
unparseable string. -/
inductive RTs where
  | valid (unix : ℚ) (hour : ℤ) (wday : ℤ)
  | unparseable
deriving DecidableEq, Repr

/-- The oracle value of `datetime.now()` during one call. -/
structure TS where
  unix : ℚ
  hour : ℤ
  wday : ℤ
deriving DecidableEq, Repr

/-- The raw input dictionary handed to `AIPipeline.analyze`. -/
structure RawInput where
  voltage : Option RVal
  frequency : Option RVal
  power_flow : Option RVal
  breaker_status : Option RBreaker
  timestamp : Option RTs
deriving DecidableEq, Repr

/-- Validated breaker state. -/
inductive Brk where
  | bon
  | boff
deriving DecidableEq, Repr

/-- `DataPreprocessor._validate_input`: the first failing check wins,
in source order.  Message texts are abridged (no quotes reproduced). -/
def validationError (x : RawInput) : Option String :=
  if x.voltage = none ∧ x.frequency = none ∧ x.power_flow = none then
    some "At least one telemetry field required: [voltage, frequency, power_flow]"
  else if x.voltage = some RVal.nonNumeric then some "Voltage must be numeric"
  else if x.frequency = some RVal.nonNumeric then some "Frequency must be numeric"
  else if x.power_flow = some RVal.nonNumeric then some "Power flow must be numeric"
  else if x.breaker_status = some RBreaker.invalid then
    some "Breaker status must be ON or OFF"
  else none

/-! ## Defaults and completion (`_handle_missing_fields`) -/

/-- Complete record after defaults; this is what `_compute_deltas` copies
into `last_telemetry` and what feeds the history buffer. -/
structure Complete where
  voltage : ℚ
  frequency : ℚ
  power_flow : ℚ
  breaker : Brk
  timestamp : RTs
deriving DecidableEq, Repr

/-- Numeric field, or the configured default (only reached when the field
is absent; a present non-numeric field has already been rejected). -/
def numOrDefault (v : Option RVal) (d : ℚ) : ℚ :=
  match v with
  | some (RVal.num q) => q
  | _ => d

/-- `_handle_missing_fields`: defaults voltage 1.0, frequency 50.0,
power_flow 0.0, breaker OFF; a missing timestamp becomes `now`. -/
def handleMissingFields (x : RawInput) (now : TS) : Complete :=
  { voltage := numOrDefault x.voltage 1
    frequency := numOrDefault x.frequency 50
    power_flow := numOrDefault x.power_flow 0
    breaker :=
      match x.breaker_status with
      | some RBreaker.bon => Brk.bon
      | _ => Brk.boff
    timestamp :=
      match x.timestamp with
      | some t => t
      | none => RTs.valid now.unix now.hour now.wday }

/-! ## Normalization (`_normalize_values`) -/

/-- Clamp then rescale to [0,1] over the configured range. -/
def normField (lo hi v : ℚ) : ℚ :=
  (max lo (min hi v) - lo) / (hi - lo)

/-! ## Temporal features (`_extract_temporal_features`) -/

structure Temporal where
  hour : ℤ
  day_of_week : ℤ
  is_weekend : Bool
  is_night : Bool
  timestamp_unix : ℚ
deriving DecidableEq, Repr

/-- Parse the stored timestamp; fall back to `now` when unparseable. -/
def extractTemporal (c : Complete) (now : TS) : Temporal :=
  match c.timestamp with
  | RTs.valid u h w =>
      { hour := h, day_of_week := w, is_weekend := decide (5 ≤ w)
        is_night := decide (h < 6 ∨ 22 ≤ h), timestamp_unix := u }
  | RTs.unparseable =>
      { hour := now.hour, day_of_week := now.wday, is_weekend := decide (5 ≤ now.wday)
        is_night := decide (now.hour < 6 ∨ 22 ≤ now.hour), timestamp_unix := now.unix }

/-! ## Delta features (`_compute_deltas`) -/

structure Deltas where
  delta_voltage : ℚ
  delta_frequency : ℚ
  delta_power_flow : ℚ
  delta_time : ℚ
  /-- `none` models the key being absent from the dict (first reading). -/
  breaker_changed : Option Bool
deriving DecidableEq, Repr

/-- `(current - last).total_seconds()`, 0.0 when either side fails to parse. -/
def tsDiff (cur last : RTs) : ℚ :=
  match cur, last with
  | RTs.valid u _ _, RTs.valid v _ _ => u - v
  | _, _ => 0

def computeDeltas (c : Complete) (last : Option Complete) : Deltas :=
  match last with
  | none =>
      { delta_voltage := 0, delta_frequency := 0, delta_power_flow := 0
        delta_time := 0, breaker_changed := none }
  | some l =>
      { delta_voltage := c.voltage - l.voltage
        delta_frequency := c.frequency - l.frequency
        delta_power_flow := c.power_flow - l.power_flow
        delta_time := tsDiff c.timestamp l.timestamp
        breaker_changed := some (decide (c.breaker ≠ l.breaker)) }

/-! ## Preprocessed record and preprocessor state -/

/-- The merged dictionary returned by `DataPreprocessor.preprocess`. -/
structure Preprocessed where
  voltage : ℚ
  frequency : ℚ
  power_flow : ℚ
  breaker : Brk
  timestamp : RTs
  voltage_norm : ℚ
  frequency_norm : ℚ
  power_flow_norm : ℚ
  hour : ℤ
  day_of_week : ℤ
  is_weekend : Bool
  is_night : Bool
  timestamp_unix : ℚ
  delta_voltage : ℚ
  delta_frequency : ℚ
  delta_power_flow : ℚ
  delta_time : ℚ
  breaker_changed : Option Bool
deriving DecidableEq, Repr

/-- One telemetry history record (`_update_history`). -/
structure HRec where
  voltage : ℚ
  frequency : ℚ
  power_flow : ℚ
  timestamp : RTs
deriving DecidableEq, Repr

structure PreState where
  last : Option Complete
  history : List HRec
deriving DecidableEq, Repr

/-- Append then `pop(0)` once if the capacity is exceeded. -/
def boundedAppend {α : Type} (cap : ℕ) (l : List α) (a : α) : List α :=
  let l2 := l ++ [a]
  if cap < l2.length then l2.tail else l2

/-- `DataPreprocessor.preprocess`: validation, defaults, normalization,
temporal features, deltas, then the history/last-sample update. -/
def preprocess (s : PreState) (x : RawInput) (now : TS) :
    Except String (Preprocessed × PreState) :=
  match validationError x with
  | some msg => Except.error msg
  | none =>
      let c := handleMissingFields x now
      let t := extractTemporal c now
      let d := computeDeltas c s.last
      let pd : Preprocessed :=
        { voltage := c.voltage, frequency := c.frequency, power_flow := c.power_flow
          breaker := c.breaker, timestamp := c.timestamp
          voltage_norm := normField 0.8 1.2 c.voltage
          frequency_norm := normField 49 51 c.frequency
          power_flow_norm := normField 0 200 c.power_flow
          hour := t.hour, day_of_week := t.day_of_week
          is_weekend := t.is_weekend, is_night := t.is_night
          timestamp_unix := t.timestamp_unix
          delta_voltage := d.delta_voltage, delta_frequency := d.delta_frequency
          delta_power_flow := d.delta_power_flow, delta_time := d.delta_time
          breaker_changed := d.breaker_changed }
      let s' : PreState :=
        { last := some c
          history := boundedAppend 100 s.history
            { voltage := c.voltage, frequency := c.frequency
              power_flow := c.power_flow, timestamp := c.timestamp } }
      Except.ok (pd, s')

/-! ## Rolling statistics (`get_rolling_statistics`)

The source returns `(mean, sqrt variance)`; we return `(mean, variance)`
and take `Real.sqrt` at the (sole) consumer, the anomaly model.  The
source's `std_dev == 0` test is equivalent to `variance == 0`. -/

def lastN {α : Type} (n : ℕ) (l : List α) : List α := l.drop (l.length - n)

def qsum (l : List ℚ) : ℚ := l.foldl (· + ·) 0

def getRollingStatistics (history : List HRec) (f : HRec → ℚ) (window : ℕ) :
    ℚ × ℚ :=
  if history.length < 2 then (0, 0)
  else
    let samples := (lastN window history).map f
    let n : ℚ := samples.length
    let mean := qsum samples / n
    let variance := qsum (samples.map (fun v => (v - mean) ^ 2)) / n
    (mean, variance)

/-! ## Model output records -/

/-- Output of one ℝ-scored model (`{'score', 'confidence', 'reason'}`). -/
structure MOut where
  score : ℝ
  confidence : ℝ
  reason : String

/-- Output of a model whose arithmetic is sqrt-free (physics, behavior). -/
structure QOut where
  score : ℚ
  confidence : ℚ
  reason : String
deriving DecidableEq, Repr

noncomputable def toMOut (p : QOut) : MOut :=
  { score := (p.score : ℝ), confidence := (p.confidence : ℝ), reason := p.reason }

/-- First-or-zero maximum: Python `max` over a nonempty list. -/
def listMaxD {α : Type} [LinearOrder α] [Zero α] : List α → α
  | [] => 0
  | h :: t => t.foldl max h

/-! ## MODEL-1: `AnomalyDetectionModel` (`models/anomaly_model.py`) -/

/-- `_compute_z_score` with the rolling variance in place of the std-dev. -/
noncomputable def zScore (value mean variance : ℚ) : ℝ :=
  if Real.sqrt (variance : ℝ) = 0 then 0
  else |(value : ℝ) - (mean : ℝ)| / Real.sqrt (variance : ℝ)

/-- `_compute_deviation_percentage`. -/
def deviationPct (value mean : ℚ) : ℚ :=
  if mean = 0 then 0 else |value - mean| / |mean|

/-- `_evaluate_anomaly`: z-score check first (threshold 2.5), then the
deviation check (threshold 0.15); `none` when not anomalous. -/
noncomputable def evaluateAnomaly (value mean variance : ℚ) : Option ℝ :=
  if (2.5 : ℝ) < zScore value mean variance then
    some (min 1 (zScore value mean variance / (2.5 * 2)))
  else if (0.15 : ℚ) < deviationPct value mean then
    some (min 1 ((deviationPct value mean : ℝ) / (0.15 * 2)))
  else none

/-- `AnomalyDetectionModel.analyze`, fed the per-field rolling
(mean, variance) pairs built by `AIPipeline._execute_models`. -/
noncomputable def anomalyAnalyze (pd : Preprocessed) (sv sf sp : ℚ × ℚ) : MOut :=
  let checks := [evaluateAnomaly pd.voltage sv.1 sv.2,
                 evaluateAnomaly pd.frequency sf.1 sf.2,
                 evaluateAnomaly pd.power_flow sp.1 sp.2]
  let scores := checks.filterMap id
  if scores.isEmpty then
    { score := 0, confidence := 0.95
      reason := "All parameters within normal statistical range" }
  else
    { score := listMaxD scores
      confidence := min 0.95 (0.6 + (scores.length : ℝ) * 0.15)
      reason := "statistical deviation from rolling mean" }

/-! ## MODEL-3: `PhysicsValidationModel` (`models/physics_model.py`) -/

def checkBreakerPower (pd : Preprocessed) : ℚ × String :=
  if pd.breaker = Brk.boff ∧ (0.01 : ℚ) < |pd.power_flow| then
    (1, "CRITICAL: Power flow with breaker OFF")
  else (0, "")

def checkVoltageBounds (pd : Preprocessed) : ℚ × String :=
  if pd.voltage < 0.95 then
    (min 1 ((0.95 - pd.voltage) / 0.95 * 5), "Voltage below physical minimum")
  else if (1.05 : ℚ) < pd.voltage then
    (min 1 ((pd.voltage - 1.05) / 1.05 * 5), "Voltage exceeds physical maximum")
  else (0, "")

def checkFrequencyBounds (pd : Preprocessed) : ℚ × String :=
  if pd.frequency < 49.5 then
    (min 1 ((49.5 - pd.frequency) / 49.5 * 10), "Frequency below physical minimum")
  else if (50.5 : ℚ) < pd.frequency then
    (min 1 ((pd.frequency - 50.5) / 50.5 * 10), "Frequency exceeds physical maximum")
  else (0, "")

def checkCausality (pd : Preprocessed) : ℚ × String :=
  if (0.02 : ℚ) < |pd.delta_voltage| ∧ (3 : ℚ) < |pd.delta_power_flow| ∧
      ((0 < pd.delta_voltage ∧ pd.delta_power_flow < 0) ∨
       (pd.delta_voltage < 0 ∧ 0 < pd.delta_power_flow)) then
    (0.6, "Power-voltage causality violation (opposite trends)")
  else (0, "")

def checkImpossibilities (pd : Preprocessed) : ℚ × String :=
  if pd.voltage < 0.01 ∧ (1 : ℚ) < pd.frequency then
    (1, "CRITICAL: Frequency exists without voltage (impossible)")
  else if pd.voltage < 0.01 ∧ (1 : ℚ) < |pd.power_flow| then
    (1, "CRITICAL: Power flow without voltage (impossible)")
  else if 0 < pd.delta_time ∧ (2 : ℚ) < |pd.delta_frequency| / pd.delta_time then
    (0.8, "Physically impossible frequency rate of change")
  else (0, "")

/-- `PhysicsValidationModel.analyze`: max of the fired check scores,
confidence 0.95 when any fire, 0.98 otherwise. -/
def physicsAnalyze (pd : Preprocessed) : QOut :=
  let fired := [checkBreakerPower pd, checkVoltageBounds pd, checkFrequencyBounds pd,
                checkCausality pd, checkImpossibilities pd].filter (fun r => 0 < r.1)
  match fired with
  | [] => { score := 0, confidence := 0.98, reason := "All physics constraints satisfied" }
  | h :: _ =>
      { score := listMaxD (fired.map (·.1)), confidence := 0.95, reason := h.2 }

/-! ## MODEL-4: `BehaviorLearningModel` (`models/behavior_model.py`) -/

/-- One entry of `command_history` (`_update_history`). -/
structure BCmd where
  timestamp : ℚ
  hour : ℤ
  breaker : Brk
  breaker_changed : Bool
deriving DecidableEq, Repr

/-- Behavior model state.  The never-read `switch_count` counter of the
source constructor is omitted. -/
structure BehState where
  command_history : List BCmd
  timestamp_history : List ℚ
  switch_timestamps : List ℚ
deriving DecidableEq, Repr

/-- `_check_replay_attack`: any stored timestamp within 0.1 s. -/
def checkReplay (pd : Preprocessed) (s : BehState) : ℚ × String :=
  if s.timestamp_history.any (fun t => |pd.timestamp_unix - t| < 0.1) then
    (0.9, "Replay attack detected (repeated timestamp)")
  else (0, "")

/-- `_check_off_hours_operation`. -/
def checkOffHours (pd : Preprocessed) : ℚ × String :=
  if pd.breaker_changed.getD false then
    if pd.is_night then (0.5, "Breaker operation during night hours")
    else if pd.is_weekend then (0.4, "Breaker operation during weekend")
    else (0, "")
  else (0, "")

/-- `_check_excessive_switching`: appends the current timestamp when the
breaker changed, prunes the FIFO to the trailing hour, fires above 10
switches per hour.  Returns the check result and the pruned FIFO that is
written back to `switch_timestamps`. -/
def checkExcessive (pd : Preprocessed) (s : BehState) : (ℚ × String) × List ℚ :=
  let st := if pd.breaker_changed.getD false
            then s.switch_timestamps ++ [pd.timestamp_unix]
            else s.switch_timestamps
  let recent := st.filter (fun t => pd.timestamp_unix - 3600 < t)
  let res :=
    if 10 < recent.length then
      (min 1 ((recent.length : ℚ) / (10 * 2)), "Excessive breaker toggling")
    else (0, "")
  (res, recent)

/-- `_check_rapid_commands`. -/
def checkRapid (pd : Preprocessed) : ℚ × String :=
  if pd.breaker_changed.getD false ∧ pd.delta_time < 5 then
    (0.6, "Rapid command sequence")
  else (0, "")

/-- The `_update_history` appends (capacity `pattern_memory_size = 50`). -/
def behaviorUpdateHistory (pd : Preprocessed) (s : BehState) : BehState :=
  { s with
    command_history := boundedAppend 50 s.command_history
      { timestamp := pd.timestamp_unix, hour := pd.hour, breaker := pd.breaker
        breaker_changed := pd.breaker_changed.getD false }
    timestamp_history := boundedAppend 50 s.timestamp_history pd.timestamp_unix }

/-- `BehaviorLearningModel.analyze`: the four checks (the excessive-
switching check rewrites `switch_timestamps`), then the history update,
then max-aggregation of the fired scores. -/
def behaviorAnalyze (pd : Preprocessed) (s : BehState) : QOut × BehState :=
  let r1 := checkReplay pd s
  let r2 := checkOffHours pd
  let er := checkExcessive pd s
  let r4 := checkRapid pd
  let s1 : BehState := { s with switch_timestamps := er.2 }
  let s2 := behaviorUpdateHistory pd s1
  let fired := [r1, r2, er.1, r4].filter (fun r => 0 < r.1)
  let out : QOut :=
    match fired with
    | [] => { score := 0, confidence := 0.75, reason := "Normal operator behavior pattern" }
    | h :: _ =>
        { score := listMaxD (fired.map (·.1))
          confidence := min 0.9 (0.65 + (fired.length : ℚ) * 0.1)
          reason := h.2 }
  (out, s2)

/-! ## MODEL-2: `FDIADetectionModel` (`models/fdia_model.py`) -/

/-- One `(voltage, frequency, power_flow)` triple. -/
structure Tri where
  voltage : ℚ
  frequency : ℚ
  power_flow : ℚ
deriving DecidableEq, Repr

/-- `FDIADetectionModel._update_history` (its own capacity-50 FIFO). -/
def fdiaUpdateHistory (s : List Tri) (pd : Preprocessed) : List Tri :=
  boundedAppend 50 s { voltage := pd.voltage, frequency := pd.frequency
                       power_flow := pd.power_flow }

/-- Numerator and the two centered sums of squares of `_compute_correlation`
(all rational); the source divides by the sqrt of their product. -/
def pearsonParts (x y : List ℚ) : ℚ × ℚ × ℚ :=
  let n : ℚ := x.length
  let mx := qsum x / n
  let my := qsum y / n
  let num := qsum ((x.zip y).map (fun p => (p.1 - mx) * (p.2 - my)))
  let ssx := qsum (x.map (fun v => (v - mx) ^ 2))
  let ssy := qsum (y.map (fun v => (v - my) ^ 2))
  (num, ssx, ssy)

/-- `_compute_correlation`: absolute Pearson correlation, 0 on degenerate
input or a zero denominator. -/
noncomputable def correlationAbs (x y : List ℚ) : ℝ :=
  if x.length ≠ y.length ∨ x.length < 2 then 0
  else if Real.sqrt (((pearsonParts x y).2.1 * (pearsonParts x y).2.2 : ℚ) : ℝ) = 0 then 0
  else |((pearsonParts x y).1 : ℝ) /
    Real.sqrt (((pearsonParts x y).2.1 * (pearsonParts x y).2.2 : ℚ) : ℝ)|

/-- `_check_correlation_mismatch`: needs 5 historical samples; fires when
the absolute V-f correlation over the last `temporal_window = 5` samples
drops below `correlation_threshold = 0.3`. -/
noncomputable def checkCorrelationMismatch (hist : List HRec) : ℝ × String :=
  if hist.length < 5 then (0, "")
  else
    let recent := lastN 5 hist
    let corr := correlationAbs (recent.map (·.voltage)) (recent.map (·.frequency))
    if corr < 0.3 then (1 - corr / 0.3, "V-f correlation breakdown")
    else (0, "")

/-- `_check_temporal_consistency`. -/
def checkTemporalConsistency (pd : Preprocessed) : ℚ × String :=
  let c : ℕ := (if (0.05 : ℚ) < |pd.delta_voltage| then 1 else 0) +
               (if (0.2 : ℚ) < |pd.delta_frequency| then 1 else 0) +
               (if (10 : ℚ) < |pd.delta_power_flow| then 1 else 0)
  if 2 ≤ c then (min 1 ((c : ℚ) / 3 + 0.3), "Coordinated parameter changes detected")
  else (0, "")

/-- `_check_multi_signal_coordination` (consulted after the model's own
history update, so the length test sees the current sample). -/
def checkCoordination (pd : Preprocessed) (fdiaHist : List Tri) : ℚ × String :=
  if fdiaHist.length < 3 then (0, "")
  else if (0.03 : ℚ) < |pd.delta_voltage| ∧ (5 : ℚ) < |pd.delta_power_flow| then
    if (0 < pd.delta_voltage ∧ pd.delta_power_flow < 0) ∨
        (pd.delta_voltage < 0 ∧ 0 < pd.delta_power_flow) then
      (0.7, "Power-voltage coordination anomaly (opposite directions)")
    else
      let r := if pd.delta_voltage ≠ 0 then |pd.delta_power_flow / pd.delta_voltage| else 0
      if 2 * 3 < r ∨ r < 2 / 3 then
        (0.6, "Suspicious power-voltage magnitude coordination")
      else (0, "")
  else (0, "")

/-- Sum of a list of reals. -/
noncomputable def rsum (l : List ℝ) : ℝ := l.foldl (· + ·) 0

/-- `FDIADetectionModel.analyze`: history update first, then the three
checks; fired scores are averaged. -/
noncomputable def fdiaAnalyze (pd : Preprocessed) (th : List HRec) (s : List Tri) :
    MOut × List Tri :=
  let s' := fdiaUpdateHistory s pd
  let r1 := checkCorrelationMismatch th
  let r2 := checkTemporalConsistency pd
  let r3 := checkCoordination pd s'
  let fired := [r1, ((r2.1 : ℝ), r2.2), ((r3.1 : ℝ), r3.2)].filter (fun r => 0 < r.1)
  let out : MOut :=
    match fired with
    | [] => { score := 0, confidence := 0.85, reason := "No FDIA indicators detected" }
    | h :: _ =>
        { score := rsum (fired.map (·.1)) / (fired.length : ℝ)
          confidence := min 0.95 (0.7 + (fired.length : ℝ) * 0.1)
          reason := if fired.length = 1 then h.2
                    else "Coordinated false data injection detected" }
  (out, s')

/-! ## MODEL-5: `MemoryModel` (`models/memory_model.py`) -/

/-- `_create_feature_vector`: weighted (voltage, frequency/50, power/100). -/
def featureVector (v f p : ℚ) : ℚ × ℚ × ℚ :=
  (v * 0.3, f / 50 * 0.3, p / 100 * 0.4)

def dotQ (a b : ℚ × ℚ × ℚ) : ℚ :=
  a.1 * b.1 + a.2.1 * b.2.1 + a.2.2 * b.2.2

def normSqQ (a : ℚ × ℚ × ℚ) : ℚ := dotQ a a

/-- `_cosine_similarity` (0 when either magnitude vanishes). -/
noncomputable def cosineSim (a b : ℚ × ℚ × ℚ) : ℝ :=
  if Real.sqrt ((normSqQ a : ℚ) : ℝ) = 0 ∨ Real.sqrt ((normSqQ b : ℚ) : ℝ) = 0 then 0
  else (dotQ a b : ℝ) / (Real.sqrt ((normSqQ a : ℚ) : ℝ) * Real.sqrt ((normSqQ b : ℚ) : ℝ))

/-- The three signatures seeded by `_initialize_attack_signatures`. -/
def initialSignatures : List (String × (ℚ × ℚ × ℚ)) :=
  [("FDIA coordinated injection", (0.35, 1.05, 0.45)),
   ("Voltage manipulation", (0.45, 1.0, 0.3)),
   ("Zero-day pattern", (0.25, 0.95, 0.5))]

/-- `_check_attack_signatures`: first signature whose similarity exceeds
`similarity_threshold = 0.85` wins. -/
noncomputable def checkAttackSignatures (cur : ℚ × ℚ × ℚ)
    (sigs : List (String × (ℚ × ℚ × ℚ))) : ℝ × String :=
  match sigs with
  | [] => (0, "")
  | (n, v) :: rest =>
      if (0.85 : ℝ) < cosineSim cur v then (cosineSim cur v, "High similarity to " ++ n)
      else checkAttackSignatures cur rest

/-- `_check_pattern_repetition` over the preprocessor's history. -/
noncomputable def checkPatternRepetition (cur : ℚ × ℚ × ℚ) (th : List HRec) :
    ℝ × String :=
  if th.length < 10 then (0, "")
  else
    let cnt := ((lastN 20 th).filter
      (fun h => (0.98 : ℝ) < cosineSim cur (featureVector h.voltage h.frequency h.power_flow))).length
    if 3 < cnt then (min 1 ((cnt : ℝ) / 10), "Suspicious pattern repetition detected")
    else (0, "")

/-- `_compute_baseline`: componentwise mean of the stored feature vectors. -/
def baselineOf (mem : List Tri) : ℚ × ℚ × ℚ :=
  match mem with
  | [] => (0.3, 1.0, 0.0)
  | _ =>
      let n : ℚ := mem.length
      let s := mem.foldl
        (fun acc m =>
          let v := featureVector m.voltage m.frequency m.power_flow
          (acc.1 + v.1, acc.2.1 + v.2.1, acc.2.2 + v.2.2)) ((0 : ℚ), (0 : ℚ), (0 : ℚ))
      (s.1 / n, s.2.1 / n, s.2.2 / n)

def sqDistQ (a b : ℚ × ℚ × ℚ) : ℚ :=
  (a.1 - b.1) ^ 2 + (a.2.1 - b.2.1) ^ 2 + (a.2.2 - b.2.2) ^ 2

/-- `_check_baseline_deviation` on the updated memory FIFO. -/
noncomputable def checkBaselineDeviation (cur : ℚ × ℚ × ℚ) (mem : List Tri) :
    ℝ × String :=
  if mem.length < 20 then (0, "")
  else
    let dist : ℝ := Real.sqrt ((sqDistQ cur (baselineOf mem) : ℚ) : ℝ)
    let nd := min 1 (dist / 0.5)
    if (0.6 : ℝ) < nd then (nd, "Significant deviation from learned baseline")
    else (0, "")

structure MemState where
  telemetry_memory : List Tri
  attack_signatures : List (String × (ℚ × ℚ × ℚ))
deriving DecidableEq, Repr

/-- `_update_memory` (capacity `history_size = 100`). -/
def memUpdate (s : MemState) (pd : Preprocessed) : MemState :=
  { s with telemetry_memory :=
      boundedAppend 100 s.telemetry_memory (Tri.mk pd.voltage pd.frequency pd.power_flow) }

/-- `MemoryModel.analyze`: memory update first, then the three checks;
max-aggregation; confidence grows with the (updated) memory fill. -/
noncomputable def memoryAnalyze (pd : Preprocessed) (th : List HRec) (s : MemState) :
    MOut × MemState :=
  let s' := memUpdate s pd
  let cur := featureVector pd.voltage pd.frequency pd.power_flow
  let r1 := checkAttackSignatures cur s.attack_signatures
  let r2 := checkPatternRepetition cur th
  let r3 := checkBaselineDeviation cur s'.telemetry_memory
  let fired := [r1, r2, r3].filter (fun r => 0 < r.1)
  let out : MOut :=
    match fired with
    | [] => { score := 0, confidence := 0.80, reason := "No similarity to known attack patterns" }
    | h :: _ =>
        { score := listMaxD (fired.map (·.1))
          confidence := min 0.95 (0.70 + ((s'.telemetry_memory.length : ℝ) / 100) * 0.2)
          reason := h.2 }
  (out, s')

/-! ## Fusion engine (`fusion_engine.py`, `ai_config.py`) -/

/-- The stored fusion weight dictionary, restricted to its five model
keys (the risk/confidence loops never look up any other key). -/
structure Weights where
  anomaly : ℚ
  fdia : ℚ
  physics : ℚ
  behavior : ℚ
  memory : ℚ
deriving DecidableEq, Repr

/-- `AIEngineConfig.FUSION_WEIGHTS`. -/
def defaultWeights : Weights :=
  { anomaly := 0.15, fdia := 0.35, physics := 0.25, behavior := 0.10, memory := 0.15 }

def sumWeights (w : Weights) : ℚ :=
  w.anomaly + w.fdia + w.physics + w.behavior + w.memory

/-- An `update_weights` argument dict: one optional value per model key,
plus the values stored under any further keys (`extra`).  Extra keys count
toward the validated sum and are merged into the stored dict, but the
risk/confidence loops only ever read the five model keys, so the `Weights`
projection of the store ignores them. -/
structure NewWeights where
  anomaly : Option ℚ
  fdia : Option ℚ
  physics : Option ℚ
  behavior : Option ℚ
  memory : Option ℚ
  extra : List ℚ
deriving DecidableEq, Repr

/-- `sum(new_weights.values())`: the five optional model values plus every
extra-key value. -/
def sumNewWeights (nw : NewWeights) : ℚ :=
  nw.anomaly.getD 0 + nw.fdia.getD 0 + nw.physics.getD 0 +
    nw.behavior.getD 0 + nw.memory.getD 0 + qsum nw.extra

/-- `FusionEngine.update_weights`: validates that the *argument's* values
sum to 1.0 within 0.01 (extra keys included), then merges them into the
stored dict (`self.weights.update(new_weights)`); the merged extra keys
are invisible to the five-model-key projection. -/
def updateWeights (w : Weights) (nw : NewWeights) : Except String Weights :=
  if (0.01 : ℚ) < |sumNewWeights nw - 1| then
    Except.error "Weights must sum to 1.0"
  else
    Except.ok
      { anomaly := nw.anomaly.getD w.anomaly, fdia := nw.fdia.getD w.fdia
        physics := nw.physics.getD w.physics, behavior := nw.behavior.getD w.behavior
        memory := nw.memory.getD w.memory }

/-- The stored weights after an `update_weights` call: unchanged when the
call raised. -/
def updateWeightsState (w : Weights) (nw : NewWeights) : Weights :=
  match updateWeights w nw with
  | Except.error _ => w
  | Except.ok w2 => w2

/-- `AIEngineConfig.get_decision` (thresholds safe 0.30, warning 0.60). -/
noncomputable def getDecision (risk : ℝ) : String :=
  if risk < 0.30 then "SAFE" else if risk < 0.60 then "WARNING" else "CRITICAL"

noncomputable def clamp01 (x : ℝ) : ℝ := max 0 (min 1 x)

/-- Python `round(x, 3)` (see the header note on midpoint ties). -/
noncomputable def pyRound3 (x : ℝ) : ℝ := ((round (x * 1000) : ℤ) : ℝ) / 1000

/-- `_calculate_weighted_risk` before clamping. -/
noncomputable def weightedSum (w : Weights) (a f p b m : ℝ) : ℝ :=
  (w.anomaly : ℝ) * a + (w.fdia : ℝ) * f + (w.physics : ℝ) * p +
    (w.behavior : ℝ) * b + (w.memory : ℝ) * m

/-- `_identify_primary_threat`: Python `max` over the insertion-ordered
items keeps the first maximal entry (it replaces only on a strictly
greater key). -/
noncomputable def identifyPrimaryThreat (scores : List (String × ℝ)) : String × ℝ :=
  match scores with
  | [] => ("none", 0)
  | h :: t => t.foldl (fun best p => if best.2 < p.2 then p else best) h

/-- `_generate_safe_explanation`: first model with score in (0.1, 0.3). -/
noncomputable def generateSafeExplanation (outs : List (String × MOut)) : String :=
  match outs.find? (fun p => 0.1 < p.2.score ∧ p.2.score < 0.3) with
  | some p => "All systems normal. Minor variance detected: " ++ p.2.reason
  | none => "All systems normal. No security threats detected."

/-- `_generate_warning_explanation`. -/
noncomputable def generateWarningExplanation (primary : String)
    (outs : List (String × MOut)) : String :=
  let primary_reason :=
    match outs.find? (fun p => p.1 = primary) with
    | some p => p.2.reason
    | none => "Unknown"
  match outs.find? (fun p => p.1 ≠ primary ∧ 0.2 < p.2.score) with
  | some p => "WARNING: " ++ primary_reason ++ ". Supporting evidence: " ++ p.2.reason
  | none => "WARNING: " ++ primary_reason

/-- `_generate_critical_explanation`. -/
noncomputable def generateCriticalExplanation (primary : String)
    (outs : List (String × MOut)) : String :=
  let primary_reason :=
    match outs.find? (fun p => p.1 = primary) with
    | some p => p.2.reason
    | none => "Unknown threat"
  if 1 < (outs.filter (fun p => 0.5 < p.2.score)).length then
    "CRITICAL: " ++ primary_reason ++ ". Multiple threat indicators detected"
  else "CRITICAL: " ++ primary_reason

/-- `FusionEngine.fuse` result record. -/
structure FusionResult where
  final_risk : ℝ
  confidence : ℝ
  decision : String
  explanation : String
  contrib_anomaly : ℝ
  contrib_fdia : ℝ
  contrib_physics : ℝ
  contrib_behavior : ℝ
  contrib_memory : ℝ
  primary_threat : String
  primary_threat_score : ℝ

/-- `FusionEngine.fuse`.  The decision is taken on the *unrounded* clamped
risk; the reported `final_risk` is that value rounded to 3 decimals. -/
noncomputable def fuse (w : Weights) (oa ofd oph obh omem : MOut) : FusionResult :=
  let risk := clamp01 (weightedSum w oa.score ofd.score oph.score obh.score omem.score)
  let conf := clamp01 (weightedSum w oa.confidence ofd.confidence oph.confidence
    obh.confidence omem.confidence)
  let decision := getDecision risk
  let scores : List (String × ℝ) :=
    [("anomaly", oa.score), ("fdia", ofd.score), ("physics", oph.score),
     ("behavior", obh.score), ("memory", omem.score)]
  let pr := identifyPrimaryThreat scores
  let outs : List (String × MOut) :=
    [("anomaly", oa), ("fdia", ofd), ("physics", oph), ("behavior", obh), ("memory", omem)]
  let expl :=
    if decision = "SAFE" then generateSafeExplanation outs
    else if decision = "WARNING" then generateWarningExplanation pr.1 outs
    else generateCriticalExplanation pr.1 outs
  { final_risk := pyRound3 risk
    confidence := pyRound3 conf
    decision := decision
    explanation := expl
    contrib_anomaly := pyRound3 ((w.anomaly : ℝ) * oa.score)
    contrib_fdia := pyRound3 ((w.fdia : ℝ) * ofd.score)
    contrib_physics := pyRound3 ((w.physics : ℝ) * oph.score)
    contrib_behavior := pyRound3 ((w.behavior : ℝ) * obh.score)
    contrib_memory := pyRound3 ((w.memory : ℝ) * omem.score)
    primary_threat := pr.1
    primary_threat_score := pyRound3 pr.2 }

/-! ## Pipeline orchestrator (`ai_pipeline.py`) -/

structure PState where
  pre : PreState
  fdia : List Tri
  beh : BehState
  mem : MemState
  weights : Weights
  analysis_count : ℕ
deriving DecidableEq, Repr

/-- A freshly constructed `AIPipeline`. -/
def freshState : PState :=
  { pre := { last := none, history := [] }
    fdia := []
    beh := { command_history := [], timestamp_history := [], switch_timestamps := [] }
    mem := { telemetry_memory := [], attack_signatures := initialSignatures }
    weights := defaultWeights
    analysis_count := 0 }

/-- `AIPipeline.reset`: clears the preprocessor, the FDIA history, the
behavior command/timestamp FIFOs, the memory FIFO and the counter.
`switch_timestamps` is not touched by the source. -/
def resetState (s : PState) : PState :=
  { pre := { last := none, history := [] }
    fdia := []
    beh := { command_history := [], timestamp_history := []
             switch_timestamps := s.beh.switch_timestamps }
    mem := { s.mem with telemetry_memory := [] }
    weights := s.weights
    analysis_count := 0 }

/-- The complete output record of `AIPipeline.analyze` (fields of the
success and error shapes merged; absent dict keys are `none`). -/
structure Output where
  anomaly_score : ℝ
  fdia_score : ℝ
  physics_score : ℝ
  behavior_score : ℝ
  memory_score : ℝ
  final_risk : ℝ
  decision : String
  confidence : ℝ
  explanation : String
  details_error : Option String
  details_primary_threat : Option String
  details_analysis_count : Option ℕ
  details_input : Option (ℚ × ℚ × ℚ × Brk)
  details_raw_input : Option RawInput

/-- `AIPipeline._handle_error`. -/
noncomputable def errorOutput (msg : String) (x : RawInput) : Output :=
  { anomaly_score := 0, fdia_score := 0, physics_score := 0
    behavior_score := 0, memory_score := 0
    final_risk := 0, decision := "ERROR", confidence := 0
    explanation := "Analysis error: " ++ msg
    details_error := some msg
    details_primary_threat := none, details_analysis_count := none
    details_input := none, details_raw_input := some x }

/-- The five model outputs produced by `_execute_models` (history and
rolling statistics are read *after* `preprocess` appended the current
sample). -/
noncomputable def runModels (s : PState) (pd : Preprocessed) (th : List HRec) :
    MOut × MOut × QOut × QOut × MOut :=
  (anomalyAnalyze pd (getRollingStatistics th (·.voltage) 20)
      (getRollingStatistics th (·.frequency) 20) (getRollingStatistics th (·.power_flow) 20),
   (fdiaAnalyze pd th s.fdia).1,
   physicsAnalyze pd,
   (behaviorAnalyze pd s.beh).1,
   (memoryAnalyze pd th s.mem).1)

/-- The output half of `AIPipeline.analyze`. -/
noncomputable def analyzeOutput (s : PState) (x : RawInput) (now : TS) : Output :=
  match preprocess s.pre x now with
  | Except.error msg => errorOutput msg x
  | Except.ok (pd, pre2) =>
      let mo := runModels s pd pre2.history
      let oa := mo.1
      let ofd := mo.2.1
      let oph := mo.2.2.1
      let obh := mo.2.2.2.1
      let omem := mo.2.2.2.2
      let fr := fuse s.weights oa ofd (toMOut oph) (toMOut obh) omem
      { anomaly_score := oa.score, fdia_score := ofd.score
        physics_score := (oph.score : ℝ), behavior_score := (obh.score : ℝ)
        memory_score := omem.score
        final_risk := fr.final_risk, decision := fr.decision
        confidence := fr.confidence, explanation := fr.explanation
        details_error := none
        details_primary_threat := some fr.primary_threat
        details_analysis_count := some s.analysis_count
        details_input := some (pd.voltage, pd.frequency, pd.power_flow, pd.breaker)
        details_raw_input := none }

/-- The state half of `AIPipeline.analyze` (fully computable: the state
only ever stores input-derived rationals). -/
def stateStep (s : PState) (x : RawInput) (now : TS) : PState :=
  match preprocess s.pre x now with
  | Except.error _ => s
  | Except.ok (pd, pre2) =>
      { pre := pre2
        fdia := fdiaUpdateHistory s.fdia pd
        beh := (behaviorAnalyze pd s.beh).2
        mem := memUpdate s.mem pd
        weights := s.weights
        analysis_count := s.analysis_count + 1 }

/-- `AIPipeline.analyze`: returned record and post-call state. -/
noncomputable def analyze (s : PState) (x : RawInput) (now : TS) : Output × PState :=
  (analyzeOutput s x now, stateStep s x now)

/-- Feeding a sequence of samples through the pipeline (state only). -/
def pipeRun (s : PState) (xs : List (RawInput × TS)) : PState :=
  xs.foldl (fun st p => stateStep st p.1 p.2) s

/-! ## Generic helper lemmas -/

section Helpers

variable {α : Type} [LinearOrder α]

lemma foldl_max_le {c : α} :
    ∀ (l : List α) (init : α), init ≤ c → (∀ a ∈ l, a ≤ c) → l.foldl max init ≤ c := by
  intro l
  induction l with
  | nil => intro init h _; simpa using h
  | cons a t ih =>
      intro init h hall
      simp only [List.foldl_cons]
      exact ih _ (max_le h (hall a (by simp))) (fun b hb => hall b (by simp [hb]))

lemma le_foldl_max : ∀ (l : List α) (init : α), init ≤ l.foldl max init := by
  intro l
  induction l with
  | nil => intro init; simp
  | cons a t ih =>
      intro init
      simp only [List.foldl_cons]
      exact le_trans (le_max_left _ _) (ih (max init a))

lemma listMaxD_le [Zero α] {l : List α} {c : α} (h0 : 0 ≤ c)
    (h : ∀ a ∈ l, a ≤ c) : listMaxD l ≤ c := by
  cases l with
  | nil => simpa [listMaxD]
  | cons a t =>
      simp only [listMaxD]
      exact foldl_max_le t a (h a (by simp)) (fun b hb => h b (by simp [hb]))

lemma le_listMaxD [Zero α] {l : List α} {lo : α} (h0 : l ≠ [])
    (h : ∀ a ∈ l, lo ≤ a) : lo ≤ listMaxD l := by
  cases l with
  | nil => exact absurd rfl h0
  | cons a t =>
      simp only [listMaxD]
      exact le_trans (h a (by simp)) (le_foldl_max t a)

end Helpers

lemma rsum_shift : ∀ (l : List ℝ) (a : ℝ), l.foldl (· + ·) a = a + rsum l := by
  intro l
  induction l with
  | nil => intro a; simp [rsum]
  | cons b t ih =>
      intro a
      simp only [rsum, List.foldl_cons]
      rw [ih (a + b), ih (0 + b)]
      ring

lemma rsum_nonneg {l : List ℝ} (h : ∀ a ∈ l, 0 ≤ a) : 0 ≤ rsum l := by
  induction l with
  | nil => simp [rsum]
  | cons a t ih =>
      have hrec : 0 ≤ rsum t := ih (fun b hb => h b (by simp [hb]))
      have ha := h a (by simp)
      simp only [rsum, List.foldl_cons]
      rw [rsum_shift]
      linarith

lemma rsum_le_length {l : List ℝ} (h : ∀ a ∈ l, a ≤ 1) : rsum l ≤ l.length := by
  induction l with
  | nil => simp [rsum]
  | cons a t ih =>
      have hrec : rsum t ≤ t.length := ih (fun b hb => h b (by simp [hb]))
      have ha := h a (by simp)
      simp only [rsum, List.foldl_cons, List.length_cons]
      rw [rsum_shift]
      push_cast
      linarith

/-- Evaluation rule for `pyRound3` when the scaled value is pinned between
two half-integers. -/
lemma pyRound3_eq {x : ℝ} {k : ℤ} (h1 : (k : ℝ) - 1/2 ≤ x * 1000)
    (h2 : x * 1000 < (k : ℝ) + 1/2) : pyRound3 x = (k : ℝ) / 1000 := by
  unfold pyRound3
  have : round (x * 1000) = k := by
    rw [round_eq, Int.floor_eq_iff]
    constructor <;> linarith
  rw [this]

lemma pyRound3_bounds {x : ℝ} (h0 : 0 ≤ x) (h1 : x ≤ 1) :
    0 ≤ pyRound3 x ∧ pyRound3 x ≤ 1 := by
  unfold pyRound3
  have hlo : (0 : ℤ) ≤ round (x * 1000) := by
    rw [round_eq]
    exact Int.floor_nonneg.mpr (by linarith)
  have hhi : round (x * 1000) ≤ 1000 := by
    rw [round_eq]
    calc ⌊x * 1000 + 1/2⌋ ≤ ⌊(1000 + 1/2 : ℝ)⌋ := Int.floor_le_floor (by linarith)
    _ = 1000 := by
        rw [Int.floor_eq_iff]
        norm_num
  constructor
  · have hc : (0 : ℝ) ≤ ((round (x * 1000) : ℤ) : ℝ) := by exact_mod_cast hlo
    exact div_nonneg hc (by norm_num)
  · rw [div_le_one (by norm_num)]
    exact_mod_cast hhi

lemma clamp01_bounds (x : ℝ) : 0 ≤ clamp01 x ∧ clamp01 x ≤ 1 := by
  unfold clamp01
  constructor
  · exact le_max_left _ _
  · exact max_le (by norm_num) (min_le_left _ _)

lemma clamp01_eq {x : ℝ} (h0 : 0 ≤ x) (h1 : x ≤ 1) : clamp01 x = x := by
  unfold clamp01
  rw [min_eq_right h1, max_eq_right h0]

/-! ### Square-root comparison helpers -/

lemma zScore_nonneg (v m var : ℚ) : 0 ≤ zScore v m var := by
  unfold zScore
  split_ifs
  · exact le_refl 0
  · positivity

lemma zScore_le {v m var b : ℚ} (hb : 0 ≤ b) (h : (v - m) ^ 2 ≤ b ^ 2 * var) :
    zScore v m var ≤ (b : ℝ) := by
  unfold zScore
  split_ifs with hstd
  · exact_mod_cast hb
  · have hvar : (0 : ℝ) < (var : ℝ) := by
      rcases lt_trichotomy ((var : ℚ) : ℝ) 0 with hlt | heq | hgt
      · exact absurd (Real.sqrt_eq_zero_of_nonpos hlt.le) hstd
      · exact absurd (by rw [heq]; exact Real.sqrt_zero) hstd
      · exact hgt
    have hstdpos : 0 < Real.sqrt (var : ℝ) := Real.sqrt_pos.mpr hvar
    rw [div_le_iff hstdpos]
    have habs : |(v : ℝ) - (m : ℝ)| = Real.sqrt (((v - m : ℚ) : ℝ) ^ 2) := by
      rw [Real.sqrt_sq_eq_abs]
      push_cast
      ring_nf
    rw [habs]
    have hmono : Real.sqrt (((v - m : ℚ) : ℝ) ^ 2) ≤ Real.sqrt ((b : ℝ) ^ 2 * (var : ℝ)) := by
      apply Real.sqrt_le_sqrt
      push_cast
      exact_mod_cast h
    refine le_trans hmono ?_
    rw [Real.sqrt_mul (by positivity), Real.sqrt_sq (by exact_mod_cast hb)]

lemma normSqQ_nonneg (a : ℚ × ℚ × ℚ) : 0 ≤ normSqQ a := by
  unfold normSqQ dotQ
  nlinarith [sq_nonneg a.1, sq_nonneg a.2.1, sq_nonneg a.2.2]

/-- Three-dimensional Cauchy-Schwarz inequality for `dotQ`. -/
lemma cauchyQ (a b : ℚ × ℚ × ℚ) : (dotQ a b) ^ 2 ≤ normSqQ a * normSqQ b := by
  unfold normSqQ dotQ
  nlinarith [sq_nonneg (a.1 * b.2.1 - a.2.1 * b.1), sq_nonneg (a.1 * b.2.2 - a.2.2 * b.1),
    sq_nonneg (a.2.1 * b.2.2 - a.2.2 * b.2.1)]

lemma cosineSim_le_one (a b : ℚ × ℚ × ℚ) : cosineSim a b ≤ 1 := by
  unfold cosineSim
  split_ifs with hne
  · norm_num
  · push_neg at hne
    have h1 : 0 < Real.sqrt ((normSqQ a : ℚ) : ℝ) :=
      lt_of_le_of_ne (Real.sqrt_nonneg _) (Ne.symm hne.1)
    have h2 : 0 < Real.sqrt ((normSqQ b : ℚ) : ℝ) :=
      lt_of_le_of_ne (Real.sqrt_nonneg _) (Ne.symm hne.2)
    rw [div_le_one (by positivity)]
    calc ((dotQ a b : ℚ) : ℝ) ≤ |((dotQ a b : ℚ) : ℝ)| := le_abs_self _
    _ = Real.sqrt (((dotQ a b : ℚ) : ℝ) ^ 2) := (Real.sqrt_sq_eq_abs _).symm
    _ ≤ Real.sqrt (((normSqQ a : ℚ) : ℝ) * ((normSqQ b : ℚ) : ℝ)) := by
        apply Real.sqrt_le_sqrt
        exact_mod_cast cauchyQ a b
    _ = _ := Real.sqrt_mul (by exact_mod_cast normSqQ_nonneg a) _

/-- Sufficient condition for the similarity to stay at or below a
threshold, entirely in rational arithmetic. -/
lemma cosineSim_le_of_sq {a b : ℚ × ℚ × ℚ} {t : ℚ} (ht : 0 ≤ t)
    (hd : 0 ≤ dotQ a b) (h : (dotQ a b) ^ 2 ≤ t ^ 2 * (normSqQ a * normSqQ b)) :
    cosineSim a b ≤ (t : ℝ) := by
  unfold cosineSim
  split_ifs with hne
  · exact_mod_cast ht
  · push_neg at hne
    have h1 : 0 < Real.sqrt ((normSqQ a : ℚ) : ℝ) :=
      lt_of_le_of_ne (Real.sqrt_nonneg _) (Ne.symm hne.1)
    have h2 : 0 < Real.sqrt ((normSqQ b : ℚ) : ℝ) :=
      lt_of_le_of_ne (Real.sqrt_nonneg _) (Ne.symm hne.2)
    rw [div_le_iff (by positivity)]
    calc ((dotQ a b : ℚ) : ℝ) = Real.sqrt (((dotQ a b : ℚ) : ℝ) ^ 2) :=
      (Real.sqrt_sq (by exact_mod_cast hd)).symm
    _ ≤ Real.sqrt ((t : ℝ) ^ 2 * (((normSqQ a : ℚ) : ℝ) * ((normSqQ b : ℚ) : ℝ))) := by
        apply Real.sqrt_le_sqrt
        exact_mod_cast h
    _ = (t : ℝ) * (Real.sqrt ((normSqQ a : ℚ) : ℝ) * Real.sqrt ((normSqQ b : ℚ) : ℝ)) := by
        rw [Real.sqrt_mul (by positivity), Real.sqrt_sq (by exact_mod_cast ht),
          Real.sqrt_mul (by exact_mod_cast normSqQ_nonneg a)]

/-- Sufficient condition for the similarity to strictly exceed a
threshold, entirely in rational arithmetic. -/
lemma lt_cosineSim_of_sq {a b : ℚ × ℚ × ℚ} {t : ℚ} (ht : 0 ≤ t)
    (hd : 0 < dotQ a b) (h : t ^ 2 * (normSqQ a * normSqQ b) < (dotQ a b) ^ 2) :
    (t : ℝ) < cosineSim a b := by
  have hna : 0 < normSqQ a := by
    rcases lt_or_eq_of_le (normSqQ_nonneg a) with hgt | heq
    · exact hgt
    · exfalso
      have := cauchyQ a b
      rw [← heq] at this
      nlinarith
  have hnb : 0 < normSqQ b := by
    rcases lt_or_eq_of_le (normSqQ_nonneg b) with hgt | heq
    · exact hgt
    · exfalso
      have := cauchyQ a b
      rw [← heq] at this
      nlinarith
  unfold cosineSim
  have h1 : 0 < Real.sqrt ((normSqQ a : ℚ) : ℝ) := Real.sqrt_pos.mpr (by exact_mod_cast hna)
  have h2 : 0 < Real.sqrt ((normSqQ b : ℚ) : ℝ) := Real.sqrt_pos.mpr (by exact_mod_cast hnb)
  rw [if_neg (by push_neg; exact ⟨ne_of_gt h1, ne_of_gt h2⟩)]
  rw [lt_div_iff (by positivity)]
  have key : (t : ℝ) * (Real.sqrt ((normSqQ a : ℚ) : ℝ) * Real.sqrt ((normSqQ b : ℚ) : ℝ)) =
      Real.sqrt ((t : ℝ) ^ 2 * (((normSqQ a : ℚ) : ℝ) * ((normSqQ b : ℚ) : ℝ))) := by
    rw [Real.sqrt_mul (by positivity), Real.sqrt_sq (by exact_mod_cast ht),
      Real.sqrt_mul (by exact_mod_cast (normSqQ_nonneg a))]
  rw [key]
  calc Real.sqrt ((t : ℝ) ^ 2 * (((normSqQ a : ℚ) : ℝ) * ((normSqQ b : ℚ) : ℝ)))
      < Real.sqrt (((dotQ a b : ℚ) : ℝ) ^ 2) := by
        apply Real.sqrt_lt_sqrt (by positivity)
        exact_mod_cast h
  _ = ((dotQ a b : ℚ) : ℝ) := Real.sqrt_sq (by exact_mod_cast hd.le)

lemma correlationAbs_nonneg (x y : List ℚ) : 0 ≤ correlationAbs x y := by
  unfold correlationAbs
  split_ifs
  · exact le_refl 0
  · exact le_refl 0
  · exact abs_nonneg _

/-! ## Per-model score/confidence bounds -/

lemma deviationPct_nonneg (v m : ℚ) : 0 ≤ deviationPct v m := by
  unfold deviationPct
  split_ifs
  · exact le_refl 0
  · positivity

lemma evaluateAnomaly_bounds {v m var : ℚ} {r : ℝ}
    (h : evaluateAnomaly v m var = some r) : 0 ≤ r ∧ r ≤ 1 := by
  unfold evaluateAnomaly at h
  split_ifs at h with h1 h2
  · have hr : r = min 1 (zScore v m var / (2.5 * 2)) := by
      injection h with h
      exact h.symm
    subst hr
    refine ⟨le_min (by norm_num) ?_, min_le_left _ _⟩
    have := zScore_nonneg v m var
    positivity
  · have hr : r = min 1 ((deviationPct v m : ℝ) / (0.15 * 2)) := by
      injection h with h
      exact h.symm
    subst hr
    refine ⟨le_min (by norm_num) ?_, min_le_left _ _⟩
    have : (0 : ℝ) ≤ (deviationPct v m : ℝ) := by exact_mod_cast deviationPct_nonneg v m
    positivity

lemma anomalyAnalyze_bounds (pd : Preprocessed) (sv sf sp : ℚ × ℚ) :
    0 ≤ (anomalyAnalyze pd sv sf sp).score ∧ (anomalyAnalyze pd sv sf sp).score ≤ 1 ∧
    0 ≤ (anomalyAnalyze pd sv sf sp).confidence ∧
      (anomalyAnalyze pd sv sf sp).confidence ≤ 1 := by
  have hmem : ∀ r ∈ List.filterMap id [evaluateAnomaly pd.voltage sv.1 sv.2,
      evaluateAnomaly pd.frequency sf.1 sf.2, evaluateAnomaly pd.power_flow sp.1 sp.2],
      0 ≤ r ∧ r ≤ 1 := by
    intro r hr
    rw [List.mem_filterMap] at hr
    obtain ⟨o, ho, heq⟩ := hr
    simp only [id] at heq
    simp only [List.mem_cons, List.not_mem_nil, or_false] at ho
    rcases ho with rfl | rfl | rfl <;> exact evaluateAnomaly_bounds heq
  simp only [anomalyAnalyze]
  split_ifs with hempty
  · norm_num
  · have hne : List.filterMap id [evaluateAnomaly pd.voltage sv.1 sv.2,
        evaluateAnomaly pd.frequency sf.1 sf.2, evaluateAnomaly pd.power_flow sp.1 sp.2] ≠ [] := by
      intro hcon
      rw [List.isEmpty_iff] at hempty
      exact hempty hcon
    refine ⟨le_listMaxD hne (fun a ha => (hmem a ha).1),
      listMaxD_le (by norm_num) (fun a ha => (hmem a ha).2), le_min (by norm_num) ?_, ?_⟩
    · positivity
    · exact le_trans (min_le_left _ _) (by norm_num)

lemma checkBreakerPower_bounds (pd : Preprocessed) :
    0 ≤ (checkBreakerPower pd).1 ∧ (checkBreakerPower pd).1 ≤ 1 := by
  unfold checkBreakerPower
  split_ifs <;> norm_num

lemma checkVoltageBounds_bounds (pd : Preprocessed) :
    0 ≤ (checkVoltageBounds pd).1 ∧ (checkVoltageBounds pd).1 ≤ 1 := by
  unfold checkVoltageBounds
  split_ifs with h1 h2
  · exact ⟨le_min (by norm_num)
      (mul_nonneg (div_nonneg (by linarith) (by norm_num)) (by norm_num)), min_le_left _ _⟩
  · exact ⟨le_min (by norm_num)
      (mul_nonneg (div_nonneg (by linarith) (by norm_num)) (by norm_num)), min_le_left _ _⟩
  · norm_num

lemma checkFrequencyBounds_bounds (pd : Preprocessed) :
    0 ≤ (checkFrequencyBounds pd).1 ∧ (checkFrequencyBounds pd).1 ≤ 1 := by
  unfold checkFrequencyBounds
  split_ifs with h1 h2
  · exact ⟨le_min (by norm_num)
      (mul_nonneg (div_nonneg (by linarith) (by norm_num)) (by norm_num)), min_le_left _ _⟩
  · exact ⟨le_min (by norm_num)
      (mul_nonneg (div_nonneg (by linarith) (by norm_num)) (by norm_num)), min_le_left _ _⟩
  · norm_num

lemma checkCausality_bounds (pd : Preprocessed) :
    0 ≤ (checkCausality pd).1 ∧ (checkCausality pd).1 ≤ 1 := by
  unfold checkCausality
  split_ifs <;> norm_num

lemma checkImpossibilities_bounds (pd : Preprocessed) :
    0 ≤ (checkImpossibilities pd).1 ∧ (checkImpossibilities pd).1 ≤ 1 := by
  unfold checkImpossibilities
  split_ifs <;> norm_num

lemma physicsAnalyze_bounds (pd : Preprocessed) :
    0 ≤ (physicsAnalyze pd).score ∧ (physicsAnalyze pd).score ≤ 1 ∧
    0 ≤ (physicsAnalyze pd).confidence ∧ (physicsAnalyze pd).confidence ≤ 1 := by
  have hall : ∀ r ∈ [checkBreakerPower pd, checkVoltageBounds pd, checkFrequencyBounds pd,
      checkCausality pd, checkImpossibilities pd], (0 : ℚ) ≤ r.1 ∧ r.1 ≤ 1 := by
    intro r hr
    simp only [List.mem_cons, List.not_mem_nil, or_false] at hr
    rcases hr with rfl | rfl | rfl | rfl | rfl
    · exact checkBreakerPower_bounds pd
    · exact checkVoltageBounds_bounds pd
    · exact checkFrequencyBounds_bounds pd
    · exact checkCausality_bounds pd
    · exact checkImpossibilities_bounds pd
  simp only [physicsAnalyze]
  split
  · norm_num
  · rename_i h hd heq
    refine ⟨le_listMaxD ?_ ?_, listMaxD_le (by norm_num) ?_, by norm_num, by norm_num⟩
    · simp [heq]
    · intro a ha
      rw [List.mem_map] at ha
      obtain ⟨q, hq, rfl⟩ := ha
      exact le_of_lt (by simpa using List.of_mem_filter hq)
    · intro a ha
      rw [List.mem_map] at ha
      obtain ⟨q, hq, rfl⟩ := ha
      exact (hall q (List.mem_of_mem_filter hq)).2

lemma checkReplay_bounds (pd : Preprocessed) (s : BehState) :
    0 ≤ (checkReplay pd s).1 ∧ (checkReplay pd s).1 ≤ 1 := by
  unfold checkReplay
  split_ifs <;> norm_num

lemma checkOffHours_bounds (pd : Preprocessed) :
    0 ≤ (checkOffHours pd).1 ∧ (checkOffHours pd).1 ≤ 1 := by
  unfold checkOffHours
  split_ifs <;> norm_num

lemma checkExcessive_bounds (pd : Preprocessed) (s : BehState) :
    0 ≤ (checkExcessive pd s).1.1 ∧ (checkExcessive pd s).1.1 ≤ 1 := by
  simp only [checkExcessive]
  split_ifs <;>
    first
    | exact ⟨le_min (by norm_num) (by positivity), min_le_left _ _⟩
    | norm_num

lemma checkRapid_bounds (pd : Preprocessed) :
    0 ≤ (checkRapid pd).1 ∧ (checkRapid pd).1 ≤ 1 := by
  unfold checkRapid
  split_ifs <;> norm_num

lemma behaviorAnalyze_bounds (pd : Preprocessed) (s : BehState) :
    0 ≤ (behaviorAnalyze pd s).1.score ∧ (behaviorAnalyze pd s).1.score ≤ 1 ∧
    0 ≤ (behaviorAnalyze pd s).1.confidence ∧ (behaviorAnalyze pd s).1.confidence ≤ 1 := by
  have hall : ∀ r ∈ [checkReplay pd s, checkOffHours pd, (checkExcessive pd s).1,
      checkRapid pd], (0 : ℚ) ≤ r.1 ∧ r.1 ≤ 1 := by
    intro r hr
    simp only [List.mem_cons, List.not_mem_nil, or_false] at hr
    rcases hr with rfl | rfl | rfl | rfl
    · exact checkReplay_bounds pd s
    · exact checkOffHours_bounds pd
    · exact checkExcessive_bounds pd s
    · exact checkRapid_bounds pd
  simp only [behaviorAnalyze]
  split
  · norm_num
  · rename_i h hd heq
    refine ⟨le_listMaxD ?_ ?_, listMaxD_le (by norm_num) ?_, le_min (by norm_num) ?_, ?_⟩
    · rw [heq]
      simp
    · intro a ha
      rw [List.mem_map] at ha
      obtain ⟨q, hq, rfl⟩ := ha
      exact le_of_lt (by simpa using List.of_mem_filter hq)
    · intro a ha
      rw [List.mem_map] at ha
      obtain ⟨q, hq, rfl⟩ := ha
      exact (hall q (List.mem_of_mem_filter hq)).2
    · positivity
    · exact le_trans (min_le_left _ _) (by norm_num)

lemma checkCorrelationMismatch_le_one (hist : List HRec) :
    (checkCorrelationMismatch hist).1 ≤ 1 := by
  simp only [checkCorrelationMismatch]
  split_ifs with h1 h2
  · norm_num
  · have := correlationAbs_nonneg ((lastN 5 hist).map (·.voltage))
      ((lastN 5 hist).map (·.frequency))
    have hdiv : (0 : ℝ) ≤ correlationAbs ((lastN 5 hist).map (·.voltage))
        ((lastN 5 hist).map (·.frequency)) / 0.3 := by positivity
    simp only
    linarith
  · norm_num

lemma checkTemporalConsistency_bounds (pd : Preprocessed) :
    0 ≤ (checkTemporalConsistency pd).1 ∧ (checkTemporalConsistency pd).1 ≤ 1 := by
  simp only [checkTemporalConsistency]
  split_ifs <;> norm_num [le_min_iff, min_le_iff]

lemma checkCoordination_bounds (pd : Preprocessed) (l : List Tri) :
    0 ≤ (checkCoordination pd l).1 ∧ (checkCoordination pd l).1 ≤ 1 := by
  simp only [checkCoordination]
  split_ifs <;> norm_num

lemma fdiaAnalyze_bounds (pd : Preprocessed) (th : List HRec) (s : List Tri) :
    0 ≤ (fdiaAnalyze pd th s).1.score ∧ (fdiaAnalyze pd th s).1.score ≤ 1 ∧
    0 ≤ (fdiaAnalyze pd th s).1.confidence ∧ (fdiaAnalyze pd th s).1.confidence ≤ 1 := by
  have hall : ∀ r ∈ [checkCorrelationMismatch th,
      (((checkTemporalConsistency pd).1 : ℝ), (checkTemporalConsistency pd).2),
      (((checkCoordination pd (fdiaUpdateHistory s pd)).1 : ℝ),
        (checkCoordination pd (fdiaUpdateHistory s pd)).2)], r.1 ≤ 1 := by
    intro r hr
    simp only [List.mem_cons, List.not_mem_nil, or_false] at hr
    rcases hr with rfl | rfl | rfl
    · exact checkCorrelationMismatch_le_one th
    · show ((checkTemporalConsistency pd).1 : ℝ) ≤ 1
      exact_mod_cast (checkTemporalConsistency_bounds pd).2
    · show ((checkCoordination pd (fdiaUpdateHistory s pd)).1 : ℝ) ≤ 1
      exact_mod_cast (checkCoordination_bounds pd _).2
  simp only [fdiaAnalyze]
  split
  · norm_num
  · rename_i h hd heq
    have hlenpos : (0 : ℝ) < ((h :: hd).length : ℝ) := by
      simp only [List.length_cons]
      push_cast
      positivity
    have hmem : ∀ r ∈ (h : ℝ × String) :: hd, 0 < r.1 ∧ r.1 ≤ 1 := by
      intro r hr
      rw [← heq] at hr
      refine ⟨by simpa using List.of_mem_filter hr, hall r (List.mem_of_mem_filter hr)⟩
    rw [heq]
    refine ⟨div_nonneg (rsum_nonneg ?_) hlenpos.le, ?_, le_min (by norm_num) ?_, ?_⟩
    · intro a ha
      rw [List.mem_map] at ha
      obtain ⟨q, hq, rfl⟩ := ha
      exact (hmem q hq).1.le
    · rw [div_le_one hlenpos]
      have := rsum_le_length (l := (h :: hd).map (·.1)) ?_
      · simpa using this
      · intro a ha
        rw [List.mem_map] at ha
        obtain ⟨q, hq, rfl⟩ := ha
        exact (hmem q hq).2
    · positivity
    · exact le_trans (min_le_left _ _) (by norm_num)

lemma checkAttackSignatures_bounds (cur : ℚ × ℚ × ℚ)
    (sigs : List (String × (ℚ × ℚ × ℚ))) :
    0 ≤ (checkAttackSignatures cur sigs).1 ∧ (checkAttackSignatures cur sigs).1 ≤ 1 := by
  induction sigs with
  | nil => simp [checkAttackSignatures]
  | cons sg rest ih =>
      obtain ⟨n, v⟩ := sg
      simp only [checkAttackSignatures]
      split_ifs with h
      · exact ⟨le_trans (by norm_num) h.le, cosineSim_le_one cur v⟩
      · exact ih

lemma checkPatternRepetition_bounds (cur : ℚ × ℚ × ℚ) (th : List HRec) :
    0 ≤ (checkPatternRepetition cur th).1 ∧ (checkPatternRepetition cur th).1 ≤ 1 := by
  simp only [checkPatternRepetition]
  split_ifs
  · norm_num
  · exact ⟨le_min (by norm_num) (by positivity), min_le_left _ _⟩
  · norm_num

lemma checkBaselineDeviation_bounds (cur : ℚ × ℚ × ℚ) (mem : List Tri) :
    0 ≤ (checkBaselineDeviation cur mem).1 ∧ (checkBaselineDeviation cur mem).1 ≤ 1 := by
  simp only [checkBaselineDeviation]
  split_ifs
  · norm_num
  · refine ⟨le_min (by norm_num) ?_, min_le_left _ _⟩
    positivity
  · norm_num

lemma memoryAnalyze_bounds (pd : Preprocessed) (th : List HRec) (s : MemState) :
    0 ≤ (memoryAnalyze pd th s).1.score ∧ (memoryAnalyze pd th s).1.score ≤ 1 ∧
    0 ≤ (memoryAnalyze pd th s).1.confidence ∧
      (memoryAnalyze pd th s).1.confidence ≤ 1 := by
  have hall : ∀ r ∈ [checkAttackSignatures (featureVector pd.voltage pd.frequency pd.power_flow)
      s.attack_signatures,
      checkPatternRepetition (featureVector pd.voltage pd.frequency pd.power_flow) th,
      checkBaselineDeviation (featureVector pd.voltage pd.frequency pd.power_flow)
        (memUpdate s pd).telemetry_memory], 0 ≤ r.1 ∧ r.1 ≤ 1 := by
    intro r hr
    simp only [List.mem_cons, List.not_mem_nil, or_false] at hr
    rcases hr with rfl | rfl | rfl
    · exact checkAttackSignatures_bounds _ _
    · exact checkPatternRepetition_bounds _ _
    · exact checkBaselineDeviation_bounds _ _
  simp only [memoryAnalyze]
  split
  · norm_num
  · rename_i h hd heq
    rw [heq]
    have hmem : ∀ r ∈ (h : ℝ × String) :: hd, 0 ≤ r.1 ∧ r.1 ≤ 1 := by
      intro r hr
      rw [← heq] at hr
      exact hall r (List.mem_of_mem_filter hr)
    have hne2 : ((h :: hd).map (fun q => q.1) : List ℝ) ≠ [] := by simp
    dsimp only
    refine ⟨?_, ?_, ?_, ?_⟩
    · apply le_listMaxD hne2
      intro a ha
      rw [List.mem_map] at ha
      obtain ⟨q, hq, rfl⟩ := ha
      exact (hmem q hq).1
    · apply listMaxD_le
      · norm_num
      · intro a ha
        rw [List.mem_map] at ha
        obtain ⟨q, hq, rfl⟩ := ha
        exact (hmem q hq).2
    · exact le_min (by norm_num) (by positivity)
    · exact le_trans (min_le_left _ _) (by norm_num)

/-! ### Decision threshold lemmas -/

lemma getDecision_safe_iff (r : ℝ) : getDecision r = "SAFE" ↔ r < 0.30 := by
  unfold getDecision
  split_ifs with h1 h2 <;> simp [h1]

lemma getDecision_warning_iff (r : ℝ) :
    getDecision r = "WARNING" ↔ 0.30 ≤ r ∧ r < 0.60 := by
  unfold getDecision
  split_ifs with h1 h2
  · constructor
    · intro hcon
      exact absurd hcon (by decide)
    · intro hc
      linarith [hc.1]
  · simp [h1, h2, le_of_not_lt h1]
  · constructor
    · intro hcon
      exact absurd hcon (by decide)
    · intro hc
      exact absurd hc.2 h2

lemma getDecision_critical_iff (r : ℝ) : getDecision r = "CRITICAL" ↔ 0.60 ≤ r := by
  unfold getDecision
  split_ifs with h1 h2
  · constructor
    · intro hcon
      exact absurd hcon (by decide)
    · intro hc
      linarith
  · constructor
    · intro hcon
      exact absurd hcon (by decide)
    · intro hc
      exact absurd h2 (not_lt.mpr hc)
  · simp [le_of_not_lt h2]

/-! ## Output projection lemmas for the success path -/

lemma preprocess_ok_of_valid (s : PreState) (x : RawInput) (now : TS)
    (hv : validationError x = none) :
    ∃ pd pre2, preprocess s x now = Except.ok (pd, pre2) := by
  unfold preprocess
  rw [hv]
  exact ⟨_, _, rfl⟩

lemma analyzeOutput_ok_proj {s : PState} {x : RawInput} {now : TS}
    {pd : Preprocessed} {pre2 : PreState}
    (h : preprocess s.pre x now = Except.ok (pd, pre2)) :
    (analyzeOutput s x now).anomaly_score = (runModels s pd pre2.history).1.score ∧
    (analyzeOutput s x now).fdia_score = (runModels s pd pre2.history).2.1.score ∧
    (analyzeOutput s x now).physics_score =
      ((runModels s pd pre2.history).2.2.1.score : ℝ) ∧
    (analyzeOutput s x now).behavior_score =
      ((runModels s pd pre2.history).2.2.2.1.score : ℝ) ∧
    (analyzeOutput s x now).memory_score = (runModels s pd pre2.history).2.2.2.2.score ∧
    (analyzeOutput s x now).final_risk =
      pyRound3 (clamp01 (weightedSum s.weights (runModels s pd pre2.history).1.score
        (runModels s pd pre2.history).2.1.score ((runModels s pd pre2.history).2.2.1.score : ℝ)
        ((runModels s pd pre2.history).2.2.2.1.score : ℝ)
        (runModels s pd pre2.history).2.2.2.2.score)) ∧
    (analyzeOutput s x now).confidence =
      pyRound3 (clamp01 (weightedSum s.weights (runModels s pd pre2.history).1.confidence
        (runModels s pd pre2.history).2.1.confidence
        ((runModels s pd pre2.history).2.2.1.confidence : ℝ)
        ((runModels s pd pre2.history).2.2.2.1.confidence : ℝ)
        (runModels s pd pre2.history).2.2.2.2.confidence)) ∧
    (analyzeOutput s x now).decision =
      getDecision (clamp01 (weightedSum s.weights (runModels s pd pre2.history).1.score
        (runModels s pd pre2.history).2.1.score ((runModels s pd pre2.history).2.2.1.score : ℝ)
        ((runModels s pd pre2.history).2.2.2.1.score : ℝ)
        (runModels s pd pre2.history).2.2.2.2.score)) := by
  simp [analyzeOutput, h, fuse, toMOut]

/-! ## Claim C1 -/

/-- C1 (amended): for every pipeline state and every raw input accepted by
validation, every per-model score and per-model confidence produced during
the call lies in [0,1], and so do the record's `final_risk` and
`confidence`; the decision is SAFE exactly when the *unrounded* clamped
weighted risk is < 0.30, WARNING exactly when it is in [0.30, 0.60), and
CRITICAL exactly when it is ≥ 0.60.  (The record's `final_risk` field is
that risk rounded to 3 decimals, which near a threshold may sit on the
other side of it — see the counterexample.) -/
theorem C1_bounds_and_monotone_decision (s : PState) (x : RawInput) (now : TS)
    (hv : validationError x = none) :
    (0 ≤ (analyzeOutput s x now).anomaly_score ∧ (analyzeOutput s x now).anomaly_score ≤ 1) ∧
    (0 ≤ (analyzeOutput s x now).fdia_score ∧ (analyzeOutput s x now).fdia_score ≤ 1) ∧
    (0 ≤ (analyzeOutput s x now).physics_score ∧ (analyzeOutput s x now).physics_score ≤ 1) ∧
    (0 ≤ (analyzeOutput s x now).behavior_score ∧ (analyzeOutput s x now).behavior_score ≤ 1) ∧
    (0 ≤ (analyzeOutput s x now).memory_score ∧ (analyzeOutput s x now).memory_score ≤ 1) ∧
    (0 ≤ (analyzeOutput s x now).final_risk ∧ (analyzeOutput s x now).final_risk ≤ 1) ∧
    (0 ≤ (analyzeOutput s x now).confidence ∧ (analyzeOutput s x now).confidence ≤ 1) ∧
    ∀ pd pre2, preprocess s.pre x now = Except.ok (pd, pre2) →
      (0 ≤ (runModels s pd pre2.history).1.confidence ∧
        (runModels s pd pre2.history).1.confidence ≤ 1) ∧
      (0 ≤ (runModels s pd pre2.history).2.1.confidence ∧
        (runModels s pd pre2.history).2.1.confidence ≤ 1) ∧
      (0 ≤ (runModels s pd pre2.history).2.2.1.confidence ∧
        (runModels s pd pre2.history).2.2.1.confidence ≤ 1) ∧
      (0 ≤ (runModels s pd pre2.history).2.2.2.1.confidence ∧
        (runModels s pd pre2.history).2.2.2.1.confidence ≤ 1) ∧
      (0 ≤ (runModels s pd pre2.history).2.2.2.2.confidence ∧
        (runModels s pd pre2.history).2.2.2.2.confidence ≤ 1) ∧
      (((analyzeOutput s x now).decision = "SAFE" ↔
          clamp01 (weightedSum s.weights (runModels s pd pre2.history).1.score
            (runModels s pd pre2.history).2.1.score
            ((runModels s pd pre2.history).2.2.1.score : ℝ)
            ((runModels s pd pre2.history).2.2.2.1.score : ℝ)
            (runModels s pd pre2.history).2.2.2.2.score) < 0.30) ∧
        ((analyzeOutput s x now).decision = "WARNING" ↔
          0.30 ≤ clamp01 (weightedSum s.weights (runModels s pd pre2.history).1.score
            (runModels s pd pre2.history).2.1.score
            ((runModels s pd pre2.history).2.2.1.score : ℝ)
            ((runModels s pd pre2.history).2.2.2.1.score : ℝ)
            (runModels s pd pre2.history).2.2.2.2.score) ∧
          clamp01 (weightedSum s.weights (runModels s pd pre2.history).1.score
            (runModels s pd pre2.history).2.1.score
            ((runModels s pd pre2.history).2.2.1.score : ℝ)
            ((runModels s pd pre2.history).2.2.2.1.score : ℝ)
            (runModels s pd pre2.history).2.2.2.2.score) < 0.60) ∧
        ((analyzeOutput s x now).decision = "CRITICAL" ↔
          0.60 ≤ clamp01 (weightedSum s.weights (runModels s pd pre2.history).1.score
            (runModels s pd pre2.history).2.1.score
            ((runModels s pd pre2.history).2.2.1.score : ℝ)
            ((runModels s pd pre2.history).2.2.2.1.score : ℝ)
            (runModels s pd pre2.history).2.2.2.2.score))) := by
  obtain ⟨pd, pre2, hok⟩ := preprocess_ok_of_valid s.pre x now hv
  obtain ⟨e1, e2, e3, e4, e5, e6, e7, e8⟩ := analyzeOutput_ok_proj hok
  have ha := anomalyAnalyze_bounds pd (getRollingStatistics pre2.history (·.voltage) 20)
    (getRollingStatistics pre2.history (·.frequency) 20)
    (getRollingStatistics pre2.history (·.power_flow) 20)
  have hf := fdiaAnalyze_bounds pd pre2.history s.fdia
  have hp := physicsAnalyze_bounds pd
  have hb := behaviorAnalyze_bounds pd s.beh
  have hm := memoryAnalyze_bounds pd pre2.history s.mem
  have hmo : runModels s pd pre2.history =
      (anomalyAnalyze pd (getRollingStatistics pre2.history (·.voltage) 20)
        (getRollingStatistics pre2.history (·.frequency) 20)
        (getRollingStatistics pre2.history (·.power_flow) 20),
       (fdiaAnalyze pd pre2.history s.fdia).1,
       physicsAnalyze pd,
       (behaviorAnalyze pd s.beh).1,
       (memoryAnalyze pd pre2.history s.mem).1) := rfl
  refine ⟨?_, ?_, ?_, ?_, ?_, ?_, ?_, ?_⟩
  · rw [e1, hmo]
    exact ⟨ha.1, ha.2.1⟩
  · rw [e2, hmo]
    exact ⟨hf.1, hf.2.1⟩
  · rw [e3, hmo]
    constructor
    · exact_mod_cast hp.1
    · exact_mod_cast hp.2.1
  · rw [e4, hmo]
    constructor
    · exact_mod_cast hb.1
    · exact_mod_cast hb.2.1
  · rw [e5, hmo]
    exact ⟨hm.1, hm.2.1⟩
  · rw [e6]
    exact pyRound3_bounds (clamp01_bounds _).1 (clamp01_bounds _).2
  · rw [e7]
    exact pyRound3_bounds (clamp01_bounds _).1 (clamp01_bounds _).2
  · intro pd' pre2' hok'
    rw [hok] at hok'
    injection hok' with hpair
    injection hpair with hpd hpre
    subst hpd
    subst hpre
    refine ⟨?_, ?_, ?_, ?_, ?_, ?_, ?_, ?_⟩
    · rw [hmo]
      exact ⟨ha.2.2.1, ha.2.2.2⟩
    · rw [hmo]
      exact ⟨hf.2.2.1, hf.2.2.2⟩
    · rw [hmo]
      constructor
      · exact_mod_cast hp.2.2.1
      · exact_mod_cast hp.2.2.2
    · rw [hmo]
      constructor
      · exact_mod_cast hb.2.2.1
      · exact_mod_cast hb.2.2.2
    · rw [hmo]
      exact ⟨hm.2.2.1, hm.2.2.2⟩
    · rw [e8]
      exact getDecision_safe_iff _
    · rw [e8]
      exact getDecision_warning_iff _
    · rw [e8]
      exact getDecision_critical_iff _

/-! ### Concrete instances

`ts10 u` is a parseable timestamp at unix second `u`, hour 10, weekday 4
(a Friday morning, neither night nor weekend).  `nowDef` is an arbitrary
value of the `datetime.now()` oracle (unused on timestamped paths). -/

def ts10 (u : ℚ) : RTs := RTs.valid u 10 4

def nowDef : TS := ⟨0, 0, 0⟩

/-- A fully-populated valid raw input. -/
def inOK (v f p : ℚ) (b : RBreaker) (u : ℚ) : RawInput :=
  ⟨some (RVal.num v), some (RVal.num f), some (RVal.num p), some b, some (ts10 u)⟩

/-- Four quiet baseline samples driving the C1 counterexample state. -/
def c1Build : List (RawInput × TS) :=
  [(inOK 1 50 200 RBreaker.bon 1000, nowDef), (inOK 1 50 200 RBreaker.bon 1010, nowDef),
   (inOK 1 50 200 RBreaker.bon 1020, nowDef), (inOK 1 50 200 RBreaker.bon 1030, nowDef)]

/-- The pipeline state after the four baseline samples of `c1Build`. -/
def c1State : PState :=
  ⟨⟨some ⟨1, 50, 200, Brk.bon, ts10 1030⟩,
    [⟨1, 50, 200, ts10 1000⟩, ⟨1, 50, 200, ts10 1010⟩,
     ⟨1, 50, 200, ts10 1020⟩, ⟨1, 50, 200, ts10 1030⟩]⟩,
   [⟨1, 50, 200⟩, ⟨1, 50, 200⟩, ⟨1, 50, 200⟩, ⟨1, 50, 200⟩],
   ⟨[⟨1000, 10, Brk.bon, false⟩, ⟨1010, 10, Brk.bon, false⟩,
     ⟨1020, 10, Brk.bon, false⟩, ⟨1030, 10, Brk.bon, false⟩],
    [1000, 1010, 1020, 1030], []⟩,
   ⟨[⟨1, 50, 200⟩, ⟨1, 50, 200⟩, ⟨1, 50, 200⟩, ⟨1, 50, 200⟩], initialSignatures⟩,
   defaultWeights, 4⟩

set_option maxHeartbeats 2000000 in
lemma c1State_reachable : c1State = pipeRun freshState c1Build := by
  norm_num +decide [pipeRun, c1Build, c1State, stateStep, preprocess, validationError, inOK,
    handleMissingFields, numOrDefault, extractTemporal, computeDeltas, normField,
    boundedAppend, ts10, nowDef, tsDiff, fdiaUpdateHistory, behaviorAnalyze,
    behaviorUpdateHistory, checkReplay, checkOffHours, checkExcessive, checkRapid,
    memUpdate, freshState, List.filter_cons, List.any_cons, abs_eq_max_neg]

/-- The fifth sample: a small voltage rise against a large power drop
(the physics causality check fires at 0.6) with the power deviation tuned
so the anomaly score lands at 1160/1163 and the weighted risk at
6969/23260 ≈ 0.29961 ∈ [0.2995, 0.3). -/
def c1Input : RawInput := inOK 1.021 50.1 130.4 RBreaker.bon 1040

def c1pd : Preprocessed :=
  ⟨1.021, 50.1, 130.4, Brk.bon, ts10 1040, 0.5525, 0.55, 0.652,
   10, 4, false, false, 1040, 0.021, 0.1, -69.6, 10, some false⟩

def c1hist : List HRec :=
  [⟨1, 50, 200, ts10 1000⟩, ⟨1, 50, 200, ts10 1010⟩, ⟨1, 50, 200, ts10 1020⟩,
   ⟨1, 50, 200, ts10 1030⟩, ⟨1.021, 50.1, 130.4, ts10 1040⟩]

def c1pre2 : PreState := ⟨some ⟨1.021, 50.1, 130.4, Brk.bon, ts10 1040⟩, c1hist⟩

lemma c1_preprocess : preprocess c1State.pre c1Input nowDef = Except.ok (c1pd, c1pre2) := by
  norm_num +decide [preprocess, validationError, c1Input, inOK, handleMissingFields,
    numOrDefault, extractTemporal, computeDeltas, normField, boundedAppend, ts10, nowDef,
    tsDiff, c1State, c1pd, c1pre2, c1hist]

/-! Evaluation of the five models on the C1 counterexample sample. -/

lemma evaluateAnomaly_none {v m var : ℚ} (h1 : (v - m) ^ 2 ≤ 2.5 ^ 2 * var)
    (h2 : deviationPct v m ≤ 0.15) : evaluateAnomaly v m var = none := by
  unfold evaluateAnomaly
  rw [if_neg (not_lt.mpr (by exact_mod_cast zScore_le (by norm_num) h1)),
    if_neg (not_lt.mpr h2)]

lemma evaluateAnomaly_dev {v m var : ℚ} (h1 : (v - m) ^ 2 ≤ 2.5 ^ 2 * var)
    (h2 : (0.15 : ℚ) < deviationPct v m) :
    evaluateAnomaly v m var = some (min 1 ((deviationPct v m : ℝ) / (0.15 * 2))) := by
  unfold evaluateAnomaly
  rw [if_neg (not_lt.mpr (by exact_mod_cast zScore_le (by norm_num) h1)), if_pos h2]

lemma c1_anomaly :
    anomalyAnalyze c1pd (getRollingStatistics c1hist (·.voltage) 20)
      (getRollingStatistics c1hist (·.frequency) 20)
      (getRollingStatistics c1hist (·.power_flow) 20) =
    ⟨(1160 : ℝ)/1163, 0.75, "statistical deviation from rolling mean"⟩ := by
  have hv : getRollingStatistics c1hist (·.voltage) 20 = (5021/5000, 441/6250000) := by
    norm_num [getRollingStatistics, lastN, qsum, c1hist]
  have hf : getRollingStatistics c1hist (·.frequency) 20 = (2501/50, 1/625) := by
    norm_num [getRollingStatistics, lastN, qsum, c1hist]
  have hp : getRollingStatistics c1hist (·.power_flow) 20 = (4652/25, 484416/625) := by
    norm_num [getRollingStatistics, lastN, qsum, c1hist]
  have ev : evaluateAnomaly c1pd.voltage (5021/5000) (441/6250000) = none :=
    evaluateAnomaly_none (by norm_num [c1pd]) (by norm_num [c1pd, deviationPct, abs_eq_max_neg])
  have ef : evaluateAnomaly c1pd.frequency (2501/50) (1/625) = none :=
    evaluateAnomaly_none (by norm_num [c1pd]) (by norm_num [c1pd, deviationPct, abs_eq_max_neg])
  have hdev : deviationPct c1pd.power_flow (4652/25) = 348/1163 := by
    norm_num [deviationPct, c1pd, abs_eq_max_neg]
  have ep : evaluateAnomaly c1pd.power_flow (4652/25) (484416/625) =
      some ((1160 : ℝ)/1163) := by
    rw [evaluateAnomaly_dev (by norm_num [c1pd]) (by rw [hdev]; norm_num), hdev]
    congr 1
    rw [min_eq_right (by push_cast; norm_num)]
    push_cast
    norm_num
  rw [hv, hf, hp]
  simp only [anomalyAnalyze, ev, ef, ep]
  norm_num [listMaxD, List.filterMap_cons, List.filterMap_nil]

lemma c1_physics : physicsAnalyze c1pd =
    ⟨0.6, 0.95, "Power-voltage causality violation (opposite trends)"⟩ := by
  norm_num +decide [physicsAnalyze, checkBreakerPower, checkVoltageBounds,
    checkFrequencyBounds, checkCausality, checkImpossibilities, c1pd, abs_eq_max_neg,
    List.filter_cons, List.filter_nil, listMaxD]

lemma c1_behavior : (behaviorAnalyze c1pd c1State.beh).1 =
    ⟨0, 0.75, "Normal operator behavior pattern"⟩ := by
  norm_num +decide [behaviorAnalyze, checkReplay, checkOffHours, checkExcessive,
    checkRapid, behaviorUpdateHistory, c1pd, c1State, abs_eq_max_neg, boundedAppend,
    List.filter_cons, List.filter_nil, List.any_cons, List.any_nil, listMaxD]

lemma c1_corr : checkCorrelationMismatch c1hist = (0, "") := by
  have hne : ¬ (correlationAbs ((lastN 5 c1hist).map (·.voltage))
      ((lastN 5 c1hist).map (·.frequency)) < 0.3) := by
    have hparts : pearsonParts ((lastN 5 c1hist).map (·.voltage))
        ((lastN 5 c1hist).map (·.frequency)) = (21/12500, 441/1250000, 1/125) := by
      norm_num [pearsonParts, qsum, lastN, c1hist]
    unfold correlationAbs
    rw [if_neg (by norm_num [lastN, c1hist]), hparts]
    have hsq : (((441/1250000 : ℚ) * (1/125) : ℚ) : ℝ) = ((21 : ℝ)/12500) ^ 2 := by
      push_cast
      norm_num
    rw [hsq, Real.sqrt_sq (by norm_num), if_neg (by norm_num)]
    push_cast
    norm_num
  simp only [checkCorrelationMismatch]
  rw [if_neg (by norm_num [c1hist]), if_neg hne]

lemma c1_fdia : (fdiaAnalyze c1pd c1hist c1State.fdia).1 =
    ⟨0, 0.85, "No FDIA indicators detected"⟩ := by
  have h2 : checkTemporalConsistency c1pd = (0, "") := by
    norm_num +decide [checkTemporalConsistency, c1pd, abs_eq_max_neg]
  have h3 : checkCoordination c1pd (fdiaUpdateHistory c1State.fdia c1pd) = (0, "") := by
    norm_num +decide [checkCoordination, fdiaUpdateHistory, boundedAppend, c1State, c1pd,
      abs_eq_max_neg]
  simp only [fdiaAnalyze, c1_corr, h2, h3]
  norm_num [List.filter_cons, List.filter_nil]

lemma cosineSim_le_85 {a b : ℚ × ℚ × ℚ} (hd : 0 ≤ dotQ a b)
    (h : (dotQ a b) ^ 2 ≤ (17/20 : ℚ) ^ 2 * (normSqQ a * normSqQ b)) :
    ¬ ((0.85 : ℝ) < cosineSim a b) := by
  have h2 : cosineSim a b ≤ ((17/20 : ℚ) : ℝ) := cosineSim_le_of_sq (by norm_num) hd h
  refine not_lt.mpr (le_trans h2 ?_)
  push_cast
  norm_num

lemma c1_memory : (memoryAnalyze c1pd c1hist c1State.mem).1 =
    ⟨0, 0.80, "No similarity to known attack patterns"⟩ := by
  have hcur : featureVector c1pd.voltage c1pd.frequency c1pd.power_flow =
      (0.3063, 0.3006, 0.5216) := by
    norm_num [featureVector, c1pd]
  have hs1 : ¬ ((0.85 : ℝ) < cosineSim (0.3063, 0.3006, 0.5216) (0.35, 1.05, 0.45)) :=
    cosineSim_le_85 (by norm_num [dotQ]) (by norm_num [dotQ, normSqQ])
  have hs2 : ¬ ((0.85 : ℝ) < cosineSim (0.3063, 0.3006, 0.5216) (0.45, 1.0, 0.3)) :=
    cosineSim_le_85 (by norm_num [dotQ]) (by norm_num [dotQ, normSqQ])
  have hs3 : ¬ ((0.85 : ℝ) < cosineSim (0.3063, 0.3006, 0.5216) (0.25, 0.95, 0.5)) :=
    cosineSim_le_85 (by norm_num [dotQ]) (by norm_num [dotQ, normSqQ])
  have hsig : checkAttackSignatures (featureVector c1pd.voltage c1pd.frequency c1pd.power_flow)
      c1State.mem.attack_signatures = (0, "") := by
    rw [hcur]
    show checkAttackSignatures _ initialSignatures = _
    simp only [initialSignatures, checkAttackSignatures, if_neg hs1, if_neg hs2, if_neg hs3]
  have hpat : checkPatternRepetition (featureVector c1pd.voltage c1pd.frequency c1pd.power_flow)
      c1hist = (0, "") := by
    simp only [checkPatternRepetition]
    rw [if_pos (by norm_num [c1hist])]
  have hbase : checkBaselineDeviation (featureVector c1pd.voltage c1pd.frequency c1pd.power_flow)
      (memUpdate c1State.mem c1pd).telemetry_memory = (0, "") := by
    simp only [checkBaselineDeviation]
    rw [if_pos (by norm_num [memUpdate, boundedAppend, c1State, c1pd])]
  simp only [memoryAnalyze, hsig, hpat, hbase]
  norm_num [List.filter_cons, List.filter_nil]

/-- C1 (counterexample): in the reachable state `c1State`
(see `c1State_reachable`), the sample `c1Input` yields decision SAFE while
the record's `final_risk` rounds up to exactly 0.3 — refuting "decision is
SAFE exactly when final_risk < 0.30" for the record returned by `analyze`. -/
theorem C1_counterexample :
    (analyzeOutput c1State c1Input nowDef).decision = "SAFE" ∧
    ¬ ((analyzeOutput c1State c1Input nowDef).final_risk < 0.30) := by
  obtain ⟨e1, e2, e3, e4, e5, e6, e7, e8⟩ := analyzeOutput_ok_proj c1_preprocess
  have hmo : runModels c1State c1pd c1pre2.history =
      (⟨(1160 : ℝ)/1163, 0.75, "statistical deviation from rolling mean"⟩,
       ⟨(0 : ℝ), 0.85, "No FDIA indicators detected"⟩,
       ⟨(0.6 : ℚ), 0.95, "Power-voltage causality violation (opposite trends)"⟩,
       ⟨(0 : ℚ), 0.75, "Normal operator behavior pattern"⟩,
       ⟨(0 : ℝ), 0.80, "No similarity to known attack patterns"⟩) := by
    show (anomalyAnalyze c1pd (getRollingStatistics c1hist (·.voltage) 20)
      (getRollingStatistics c1hist (·.frequency) 20)
      (getRollingStatistics c1hist (·.power_flow) 20),
      (fdiaAnalyze c1pd c1hist c1State.fdia).1,
      physicsAnalyze c1pd, (behaviorAnalyze c1pd c1State.beh).1,
      (memoryAnalyze c1pd c1hist c1State.mem).1) = _
    rw [c1_anomaly, c1_physics, c1_behavior, c1_fdia, c1_memory]
  have hrisk : weightedSum c1State.weights ((1160 : ℝ)/1163) 0 ((0.6 : ℚ) : ℝ) ((0 : ℚ) : ℝ) 0 =
      (6969 : ℝ)/23260 := by
    show weightedSum defaultWeights _ _ _ _ _ = _
    unfold weightedSum defaultWeights
    push_cast
    norm_num
  have hclamp : clamp01 ((6969 : ℝ)/23260) = (6969 : ℝ)/23260 :=
    clamp01_eq (by norm_num) (by norm_num)
  constructor
  · rw [e8, hmo]
    simp only
    rw [hrisk, hclamp]
    unfold getDecision
    rw [if_pos (by norm_num)]
  · rw [e6, hmo]
    simp only
    rw [hrisk, hclamp]
    rw [@pyRound3_eq ((6969 : ℝ)/23260) 300 (by norm_num) (by norm_num)]
    norm_num

/-- C1 (witness for the amended theorem at a concrete input). -/
theorem C1_witness :
    validationError (inOK 1 50 100 RBreaker.bon 1000) = none ∧
    (0 ≤ (analyzeOutput freshState (inOK 1 50 100 RBreaker.bon 1000) nowDef).final_risk ∧
      (analyzeOutput freshState (inOK 1 50 100 RBreaker.bon 1000) nowDef).final_risk ≤ 1) :=
  ⟨by norm_num +decide [validationError, inOK],
   (C1_bounds_and_monotone_decision freshState (inOK 1 50 100 RBreaker.bon 1000) nowDef
      (by norm_num +decide [validationError, inOK])).2.2.2.2.2.1⟩

/-! ## Claim C2 / C9: the validation-error path -/

/-- No telemetry field present. -/
def noTelemetry (x : RawInput) : Prop :=
  x.voltage = none ∧ x.frequency = none ∧ x.power_flow = none

/-- Some present numeric field is non-numeric. -/
def badNumeric (x : RawInput) : Prop :=
  x.voltage = some RVal.nonNumeric ∨ x.frequency = some RVal.nonNumeric ∨
    x.power_flow = some RVal.nonNumeric

/-- `breaker_status` present but neither ON nor OFF. -/
def badBreaker (x : RawInput) : Prop :=
  x.breaker_status = some RBreaker.invalid

lemma validationError_some_of {x : RawInput}
    (h : noTelemetry x ∨ badNumeric x ∨ badBreaker x) :
    ∃ msg, validationError x = some msg := by
  unfold validationError
  split_ifs with h1 h2 h3 h4 h5
  · exact ⟨_, rfl⟩
  · exact ⟨_, rfl⟩
  · exact ⟨_, rfl⟩
  · exact ⟨_, rfl⟩
  · exact ⟨_, rfl⟩
  · exfalso
    rcases h with hnt | hbn | hbb
    · exact h1 hnt
    · rcases hbn with hb | hb | hb
      · exact h2 hb
      · exact h3 hb
      · exact h4 hb
    · exact h5 hbb

lemma analyze_error {s : PState} {x : RawInput} {now : TS} {msg : String}
    (h : validationError x = some msg) : analyze s x now = (errorOutput msg x, s) := by
  have hp : preprocess s.pre x now = Except.error msg := by
    unfold preprocess
    rw [h]
  unfold analyze analyzeOutput stateStep
  rw [hp]

/-- C2: when validation rejects the input (no telemetry field, a
non-numeric present field, or a bad breaker status), `analyze` does not
propagate the exception: it returns a record with decision ERROR, all five
model scores 0.0, final risk 0.0, confidence 0.0, the error message inside
the explanation, and the message in the details error field. -/
theorem C2_validation_error_record (s : PState) (x : RawInput) (now : TS)
    (h : noTelemetry x ∨ badNumeric x ∨ badBreaker x) :
    ∃ msg, validationError x = some msg ∧
      (analyze s x now).1.decision = "ERROR" ∧
      (analyze s x now).1.anomaly_score = 0 ∧
      (analyze s x now).1.fdia_score = 0 ∧
      (analyze s x now).1.physics_score = 0 ∧
      (analyze s x now).1.behavior_score = 0 ∧
      (analyze s x now).1.memory_score = 0 ∧
      (analyze s x now).1.final_risk = 0 ∧
      (analyze s x now).1.confidence = 0 ∧
      (analyze s x now).1.explanation = "Analysis error: " ++ msg ∧
      (analyze s x now).1.details_error = some msg := by
  obtain ⟨msg, hmsg⟩ := validationError_some_of h
  refine ⟨msg, hmsg, ?_⟩
  rw [analyze_error hmsg]
  exact ⟨rfl, rfl, rfl, rfl, rfl, rfl, rfl, rfl, rfl, rfl⟩

/-- C2 witness: the empty input dictionary. -/
theorem C2_witness :
    (noTelemetry (⟨none, none, none, none, none⟩ : RawInput) ∨
      badNumeric ⟨none, none, none, none, none⟩ ∨
      badBreaker ⟨none, none, none, none, none⟩) ∧
    ∃ msg, validationError (⟨none, none, none, none, none⟩ : RawInput) = some msg ∧
      (analyze freshState ⟨none, none, none, none, none⟩ nowDef).1.decision = "ERROR" ∧
      (analyze freshState ⟨none, none, none, none, none⟩ nowDef).1.anomaly_score = 0 ∧
      (analyze freshState ⟨none, none, none, none, none⟩ nowDef).1.fdia_score = 0 ∧
      (analyze freshState ⟨none, none, none, none, none⟩ nowDef).1.physics_score = 0 ∧
      (analyze freshState ⟨none, none, none, none, none⟩ nowDef).1.behavior_score = 0 ∧
      (analyze freshState ⟨none, none, none, none, none⟩ nowDef).1.memory_score = 0 ∧
      (analyze freshState ⟨none, none, none, none, none⟩ nowDef).1.final_risk = 0 ∧
      (analyze freshState ⟨none, none, none, none, none⟩ nowDef).1.confidence = 0 ∧
      (analyze freshState ⟨none, none, none, none, none⟩ nowDef).1.explanation =
        "Analysis error: " ++ msg ∧
      (analyze freshState ⟨none, none, none, none, none⟩ nowDef).1.details_error = some msg :=
  ⟨Or.inl ⟨rfl, rfl, rfl⟩,
   C2_validation_error_record freshState ⟨none, none, none, none, none⟩ nowDef
     (Or.inl ⟨rfl, rfl, rfl⟩)⟩

/-- C9: a rejected input mutates no pipeline state at all — the post-call
state equals the pre-call state (so the preprocessor history, the model
FIFOs and `analysis_count` are untouched, and later analyses and
`get_pipeline_stats` cannot observe the rejected input). -/
theorem C9_error_leaves_state_unchanged (s : PState) (x : RawInput) (now : TS)
    (h : validationError x ≠ none) :
    (analyze s x now).2 = s ∧ (analyze s x now).2.analysis_count = s.analysis_count := by
  cases hv : validationError x with
  | none => exact absurd hv h
  | some msg =>
      rw [analyze_error hv]
      exact ⟨rfl, rfl⟩

/-- C9 witness: a non-numeric voltage field. -/
theorem C9_witness :
    validationError (⟨some RVal.nonNumeric, none, none, none, none⟩ : RawInput) ≠ none ∧
    (analyze c1State ⟨some RVal.nonNumeric, none, none, none, none⟩ nowDef).2 = c1State :=
  ⟨by simp [validationError],
   (C9_error_leaves_state_unchanged c1State ⟨some RVal.nonNumeric, none, none, none, none⟩
     nowDef (by simp [validationError])).1⟩

/-! ## Claim C4: fusion weight invariant -/

/-- C4 (amended): the initial weights sum to exactly 1; `update_weights`
rejects any argument whose values do not sum to 1.0 ± 0.01, leaving the
stored weights unchanged; and an *accepted* update that supplies exactly
the five model keys and nothing else leaves the stored sum within
1.0 ± 0.01.  (An accepted partial update, or an accepted update padded
with extra keys, can break the invariant — see the counterexample —
because the source validates the whole argument dict but then merges it
with `dict.update` while the fusion loops read only the five model keys.) -/
theorem C4_weight_invariant :
    sumWeights defaultWeights = 1 ∧
    (∀ w nw, (0.01 : ℚ) < |sumNewWeights nw - 1| → updateWeightsState w nw = w) ∧
    (∀ w nw w2, nw.anomaly.isSome = true → nw.fdia.isSome = true →
      nw.physics.isSome = true → nw.behavior.isSome = true → nw.memory.isSome = true →
      nw.extra = [] →
      updateWeights w nw = Except.ok w2 → |sumWeights w2 - 1| ≤ 0.01) := by
  refine ⟨by norm_num [sumWeights, defaultWeights], ?_, ?_⟩
  · intro w nw hbad
    unfold updateWeightsState updateWeights
    rw [if_pos hbad]
  · intro w nw w2 h1 h2 h3 h4 h5 hx hok
    unfold updateWeights at hok
    split_ifs at hok with hb
    obtain ⟨a, ha⟩ := Option.isSome_iff_exists.mp h1
    obtain ⟨b, hbv⟩ := Option.isSome_iff_exists.mp h2
    obtain ⟨c, hc⟩ := Option.isSome_iff_exists.mp h3
    obtain ⟨d, hd⟩ := Option.isSome_iff_exists.mp h4
    obtain ⟨e, he⟩ := Option.isSome_iff_exists.mp h5
    injection hok with hw2
    subst hw2
    have hsum : sumWeights
        { anomaly := nw.anomaly.getD w.anomaly, fdia := nw.fdia.getD w.fdia
          physics := nw.physics.getD w.physics, behavior := nw.behavior.getD w.behavior
          memory := nw.memory.getD w.memory } = sumNewWeights nw := by
      unfold sumWeights sumNewWeights
      rw [ha, hbv, hc, hd, he, hx]
      simp [qsum]
    rw [hsum]
    exact not_lt.mp hb

/-- C4 witness: a rejected unbalanced update and an accepted
exactly-five-keys update. -/
theorem C4_witness :
    ((0.01 : ℚ) < |sumNewWeights ⟨some 0.9, some 0.9, none, none, none, []⟩ - 1| ∧
      updateWeightsState defaultWeights ⟨some 0.9, some 0.9, none, none, none, []⟩ =
        defaultWeights) ∧
    (updateWeights defaultWeights ⟨some 0.2, some 0.2, some 0.2, some 0.2, some 0.2, []⟩ =
        Except.ok ⟨0.2, 0.2, 0.2, 0.2, 0.2⟩ ∧
      |sumWeights ⟨0.2, 0.2, 0.2, 0.2, 0.2⟩ - 1| ≤ 0.01) := by
  have hok : updateWeights defaultWeights
      ⟨some 0.2, some 0.2, some 0.2, some 0.2, some 0.2, []⟩ =
      Except.ok ⟨0.2, 0.2, 0.2, 0.2, 0.2⟩ := by
    norm_num [updateWeights, sumNewWeights, qsum, abs_eq_max_neg]
  refine ⟨⟨by norm_num [sumNewWeights, qsum, abs_eq_max_neg], ?_⟩, hok, ?_⟩
  · exact (C4_weight_invariant).2.1 defaultWeights _
      (by norm_num [sumNewWeights, qsum, abs_eq_max_neg])
  · exact (C4_weight_invariant).2.2 defaultWeights
      ⟨some 0.2, some 0.2, some 0.2, some 0.2, some 0.2, []⟩ _ rfl rfl rfl rfl rfl rfl hok

/-- C4 (counterexample): two accepted updates break the invariant.  The
partial dict `{'anomaly': 1.0}` sums to 1.0, is accepted, and the merged
stored weights sum to 1.85; the padded dict
`{'anomaly': .1, 'fdia': .1, 'physics': .1, 'behavior': .1, 'memory': .1,
'extra': .5}` also sums to 1.0, is accepted, and leaves the stored
model-weight sum at 0.5 — both outside the 1.0 ± 0.01 tolerance. -/
theorem C4_counterexample :
    (updateWeights defaultWeights ⟨some 1, none, none, none, none, []⟩ =
        Except.ok ⟨1, 0.35, 0.25, 0.10, 0.15⟩ ∧
      sumWeights ⟨1, 0.35, 0.25, 0.10, 0.15⟩ = 1.85 ∧
      (0.01 : ℚ) < |(1.85 : ℚ) - 1|) ∧
    (updateWeights defaultWeights
        ⟨some 0.1, some 0.1, some 0.1, some 0.1, some 0.1, [0.5]⟩ =
        Except.ok ⟨0.1, 0.1, 0.1, 0.1, 0.1⟩ ∧
      sumWeights ⟨0.1, 0.1, 0.1, 0.1, 0.1⟩ = 0.5 ∧
      (0.01 : ℚ) < |(0.5 : ℚ) - 1|) := by
  refine ⟨⟨?_, ?_, ?_⟩, ?_, ?_, ?_⟩ <;>
    norm_num [updateWeights, sumNewWeights, sumWeights, defaultWeights, qsum,
      abs_eq_max_neg]

/-! ## Claim C8: primary-threat tie-breaking -/

/-- C8: `fuse` picks as primary threat the first maximal entry of the
insertion-ordered score map (anomaly, fdia, physics, behavior, memory):
a later model is primary only when it *strictly* beats every earlier
model, and every other model scores no higher; with all five scores 0.0
the primary threat is "anomaly". -/
theorem C8_primary_threat_first_max :
    (∀ (w : Weights) (oa ofd oph obh omem : MOut),
      (((fuse w oa ofd oph obh omem).primary_threat = "anomaly" →
        ofd.score ≤ oa.score ∧ oph.score ≤ oa.score ∧ obh.score ≤ oa.score ∧
          omem.score ≤ oa.score) ∧
      ((fuse w oa ofd oph obh omem).primary_threat = "fdia" →
        oa.score < ofd.score ∧ oph.score ≤ ofd.score ∧ obh.score ≤ ofd.score ∧
          omem.score ≤ ofd.score) ∧
      ((fuse w oa ofd oph obh omem).primary_threat = "physics" →
        oa.score < oph.score ∧ ofd.score < oph.score ∧ obh.score ≤ oph.score ∧
          omem.score ≤ oph.score) ∧
      ((fuse w oa ofd oph obh omem).primary_threat = "behavior" →
        oa.score < obh.score ∧ ofd.score < obh.score ∧ oph.score < obh.score ∧
          omem.score ≤ obh.score) ∧
      ((fuse w oa ofd oph obh omem).primary_threat = "memory" →
        oa.score < omem.score ∧ ofd.score < omem.score ∧ oph.score < omem.score ∧
          obh.score < omem.score)) ∧
      ((fuse w oa ofd oph obh omem).primary_threat = "anomaly" ∨
       (fuse w oa ofd oph obh omem).primary_threat = "fdia" ∨
       (fuse w oa ofd oph obh omem).primary_threat = "physics" ∨
       (fuse w oa ofd oph obh omem).primary_threat = "behavior" ∨
       (fuse w oa ofd oph obh omem).primary_threat = "memory")) ∧
    (∀ (w : Weights) (oa ofd oph obh omem : MOut), oa.score = 0 → ofd.score = 0 →
      oph.score = 0 → obh.score = 0 → omem.score = 0 →
      (fuse w oa ofd oph obh omem).primary_threat = "anomaly") := by
  have hpt : ∀ (w : Weights) (oa ofd oph obh omem : MOut),
      (fuse w oa ofd oph obh omem).primary_threat =
      (identifyPrimaryThreat [("anomaly", oa.score), ("fdia", ofd.score),
        ("physics", oph.score), ("behavior", obh.score), ("memory", omem.score)]).1 :=
    fun _ _ _ _ _ _ => rfl
  constructor
  · intro w oa ofd oph obh omem
    rw [hpt, identifyPrimaryThreat]
    simp only [List.foldl]
    split_ifs with h1 h2 h3 h4 <;>
      (try dsimp only at *) <;>
      constructor <;>
      first
      | (refine ⟨?_, ?_, ?_, ?_, ?_⟩ <;> intro hname <;>
          first
          | exact absurd hname (by decide)
          | (refine ⟨?_, ?_, ?_, ?_⟩ <;> linarith))
      | simp
  · intro w oa ofd oph obh omem h1 h2 h3 h4 h5
    rw [hpt, identifyPrimaryThreat]
    simp [List.foldl, h1, h2, h3, h4, h5]

/-- C8 witness: with all scores zero the primary threat is "anomaly". -/
theorem C8_witness :
    (fuse defaultWeights ⟨0, 0.95, "a"⟩ ⟨0, 0.85, "b"⟩ ⟨0, 0.98, "c"⟩ ⟨0, 0.75, "d"⟩
      ⟨0, 0.8, "e"⟩).primary_threat = "anomaly" :=
  C8_primary_threat_first_max.2 defaultWeights ⟨0, 0.95, "a"⟩ ⟨0, 0.85, "b"⟩ ⟨0, 0.98, "c"⟩
    ⟨0, 0.75, "d"⟩ ⟨0, 0.8, "e"⟩ rfl rfl rfl rfl rfl

/-! ## Claim C6: the behavioral FIFOs -/

/-- A preprocessed sample whose `breaker_changed` key is absent. -/
def c6pd : Preprocessed :=
  ⟨1, 50, 100, Brk.bon, ts10 1000, 0.5, 0.5, 0.5, 10, 4, false, false, 1000,
   0, 0, 0, 0, none⟩

/-- C6 (counterexample): on a sample with no breaker change, the breaker-
toggle FIFO is *not* appended with the current sample — refuting "the
current sample is appended to all three FIFOs". -/
theorem C6_counterexample :
    ¬ ((behaviorAnalyze c6pd ⟨[], [], []⟩).2.switch_timestamps =
        boundedAppend 50 ([] : List ℚ) c6pd.timestamp_unix) := by
  have hlhs : (behaviorAnalyze c6pd ⟨[], [], []⟩).2.switch_timestamps = [] := by
    norm_num +decide [behaviorAnalyze, checkReplay, checkOffHours, checkExcessive,
      checkRapid, behaviorUpdateHistory, boundedAppend, c6pd, List.any_nil, List.filter_nil]
  rw [hlhs]
  norm_num [boundedAppend]

lemma boundedAppend_length_le {α : Type} {cap : ℕ} (l : List α) (a : α)
    (h : l.length ≤ cap) : (boundedAppend cap l a).length ≤ cap := by
  simp only [boundedAppend]
  split_ifs with hl
  · simp only [List.length_tail, List.length_append, List.length_singleton] at *
    omega
  · simp only [List.length_append, List.length_singleton] at *
    omega

lemma boundedAppend_eq_if {α : Type} {cap : ℕ} (l : List α) (a : α) (h : l.length ≤ cap) :
    boundedAppend cap l a = if l.length < cap then l ++ [a] else (l ++ [a]).tail := by
  simp only [boundedAppend]
  split_ifs with hc hd <;>
    simp only [List.length_append, List.length_singleton] at * <;>
    first
    | rfl
    | omega

/-- C6 (amended): the command and timestamp FIFOs each receive the current
sample on every call and are bounded by 50 with the single oldest entry
evicted when full; the breaker-toggle FIFO instead receives the current
timestamp only when the sample's breaker-changed flag is set (inside the
excessive-switching check), and is pruned to the trailing hour rather than
capacity-bounded. -/
theorem C6_fifo_amended (pd : Preprocessed) (s : BehState)
    (h1 : s.command_history.length ≤ 50) (h2 : s.timestamp_history.length ≤ 50) :
    ((behaviorAnalyze pd s).2.command_history.length ≤ 50 ∧
      (behaviorAnalyze pd s).2.timestamp_history.length ≤ 50) ∧
    ((behaviorAnalyze pd s).2.command_history =
      if s.command_history.length < 50
      then s.command_history ++
        [BCmd.mk pd.timestamp_unix pd.hour pd.breaker (pd.breaker_changed.getD false)]
      else (s.command_history ++
        [BCmd.mk pd.timestamp_unix pd.hour pd.breaker (pd.breaker_changed.getD false)]).tail) ∧
    ((behaviorAnalyze pd s).2.timestamp_history =
      if s.timestamp_history.length < 50
      then s.timestamp_history ++ [pd.timestamp_unix]
      else (s.timestamp_history ++ [pd.timestamp_unix]).tail) ∧
    ((behaviorAnalyze pd s).2.switch_timestamps =
      (if pd.breaker_changed.getD false then s.switch_timestamps ++ [pd.timestamp_unix]
       else s.switch_timestamps).filter (fun t => pd.timestamp_unix - 3600 < t)) := by
  have hs2 : (behaviorAnalyze pd s).2 =
      behaviorUpdateHistory pd { s with switch_timestamps := (checkExcessive pd s).2 } := rfl
  rw [hs2]
  unfold behaviorUpdateHistory
  refine ⟨⟨boundedAppend_length_le _ _ h1, boundedAppend_length_le _ _ h2⟩,
    boundedAppend_eq_if _ _ h1, boundedAppend_eq_if _ _ h2, ?_⟩
  show (checkExcessive pd s).2 = _
  unfold checkExcessive
  rfl

/-- C6 witness for the amended theorem on an empty behavior state. -/
theorem C6_witness :
    (([] : List BCmd).length ≤ 50 ∧ ([] : List ℚ).length ≤ 50) ∧
    ((behaviorAnalyze c6pd ⟨[], [], []⟩).2.command_history.length ≤ 50 ∧
      (behaviorAnalyze c6pd ⟨[], [], []⟩).2.timestamp_history.length ≤ 50) :=
  ⟨⟨by norm_num, by norm_num⟩,
   (C6_fifo_amended c6pd ⟨[], [], []⟩ (by norm_num) (by norm_num)).1⟩

/-! ## Claim C10: the very first analyze call -/

/-- C10: on a freshly constructed pipeline's first call (no previous
sample stored), the preprocessed record carries zero deltas and *no*
breaker-changed key at all; every behavior-model consumer reads the flag
with a default of false, so the off-hours check, the excessive-switching
append (and its firing), and the rapid-command check cannot trigger, and
the stored command record carries `breaker_changed = false`. -/
theorem C10_first_call_no_breaker_flag (x : RawInput) (now : TS)
    (hv : validationError x = none) :
    ∃ pd pre2, preprocess freshState.pre x now = Except.ok (pd, pre2) ∧
      pd.delta_voltage = 0 ∧ pd.delta_frequency = 0 ∧ pd.delta_power_flow = 0 ∧
      pd.delta_time = 0 ∧ pd.breaker_changed = none ∧
      checkOffHours pd = (0, "") ∧ checkRapid pd = (0, "") ∧
      (checkExcessive pd freshState.beh).1 = (0, "") ∧
      (behaviorAnalyze pd freshState.beh).2.switch_timestamps = [] ∧
      (behaviorAnalyze pd freshState.beh).2.command_history =
        [⟨pd.timestamp_unix, pd.hour, pd.breaker, false⟩] := by
  obtain ⟨pd, pre2, hok⟩ := preprocess_ok_of_valid freshState.pre x now hv
  have hok2 := hok
  unfold preprocess at hok2
  rw [hv] at hok2
  simp only [Except.ok.injEq, Prod.mk.injEq] at hok2
  obtain ⟨hpd, hpre2⟩ := hok2
  have hbc : pd.breaker_changed = none := by rw [← hpd]; rfl
  have hdv : pd.delta_voltage = 0 := by rw [← hpd]; rfl
  have hdf : pd.delta_frequency = 0 := by rw [← hpd]; rfl
  have hdp : pd.delta_power_flow = 0 := by rw [← hpd]; rfl
  have hdt : pd.delta_time = 0 := by rw [← hpd]; rfl
  refine ⟨pd, pre2, hok, hdv, hdf, hdp, hdt, hbc, ?_, ?_, ?_, ?_, ?_⟩
  · simp [checkOffHours, hbc]
  · simp [checkRapid, hbc]
  · norm_num [checkExcessive, hbc, freshState]
  · norm_num [behaviorAnalyze, behaviorUpdateHistory, checkExcessive, hbc, freshState]
  · norm_num [behaviorAnalyze, behaviorUpdateHistory, checkExcessive, hbc, freshState,
      boundedAppend]

/-- C10 witness at a concrete first input. -/
theorem C10_witness :
    validationError (inOK 1 50 100 RBreaker.bon 1000) = none ∧
    ∃ pd pre2,
      preprocess freshState.pre (inOK 1 50 100 RBreaker.bon 1000) nowDef =
        Except.ok (pd, pre2) ∧
      pd.delta_voltage = 0 ∧ pd.delta_frequency = 0 ∧ pd.delta_power_flow = 0 ∧
      pd.delta_time = 0 ∧ pd.breaker_changed = none ∧
      checkOffHours pd = (0, "") ∧ checkRapid pd = (0, "") ∧
      (checkExcessive pd freshState.beh).1 = (0, "") ∧
      (behaviorAnalyze pd freshState.beh).2.switch_timestamps = [] ∧
      (behaviorAnalyze pd freshState.beh).2.command_history =
        [⟨pd.timestamp_unix, pd.hour, pd.breaker, false⟩] :=
  ⟨by norm_num +decide [validationError, inOK],
   C10_first_call_no_breaker_flag (inOK 1 50 100 RBreaker.bon 1000) nowDef
     (by norm_num +decide [validationError, inOK])⟩

/-! ## Claim C7: determinism in input and history -/

lemma handleMissingFields_now_indep (x : RawInput) (t : RTs)
    (hts : x.timestamp = some t) (nowA nowB : TS) :
    handleMissingFields x nowA = handleMissingFields x nowB := by
  unfold handleMissingFields
  rw [hts]

lemma extractTemporal_now_indep (c : Complete) (u : ℚ) (h w : ℤ)
    (hc : c.timestamp = RTs.valid u h w) (nowA nowB : TS) :
    extractTemporal c nowA = extractTemporal c nowB := by
  unfold extractTemporal
  rw [hc]

lemma preprocess_now_indep (s : PreState) (x : RawInput) (u : ℚ) (h w : ℤ)
    (hts : x.timestamp = some (RTs.valid u h w)) (nowA nowB : TS) :
    preprocess s x nowA = preprocess s x nowB := by
  have hmf : handleMissingFields x nowA = handleMissingFields x nowB :=
    handleMissingFields_now_indep x _ hts nowA nowB
  have hct : (handleMissingFields x nowB).timestamp = RTs.valid u h w := by
    unfold handleMissingFields
    rw [hts]
  have hext : extractTemporal (handleMissingFields x nowB) nowA =
      extractTemporal (handleMissingFields x nowB) nowB :=
    extractTemporal_now_indep _ u h w hct nowA nowB
  unfold preprocess
  cases hve : validationError x
  · simp only [hmf, hext]
  · rfl

/-- C7 (amended): when the raw input carries a parseable timestamp, the
orchestrator is a pure function of the input and the pipeline state — the
hidden wall clock does not influence the output record or the post-call
state.  (With a missing or unparseable timestamp the clock leaks in; see
the counterexample.) -/
theorem C7_deterministic_when_timestamp_parses (s : PState) (x : RawInput)
    (u : ℚ) (h w : ℤ) (hts : x.timestamp = some (RTs.valid u h w))
    (nowA nowB : TS) :
    analyze s x nowA = analyze s x nowB := by
  have hp : preprocess s.pre x nowA = preprocess s.pre x nowB :=
    preprocess_now_indep s.pre x u h w hts nowA nowB
  unfold analyze analyzeOutput stateStep
  rw [hp]

/-- C7 witness: two different clock readings, same timestamped input, same
fresh state, identical call results. -/
theorem C7_witness :
    (inOK 1 50 100 RBreaker.bon 1000).timestamp = some (RTs.valid 1000 10 4) ∧
    analyze freshState (inOK 1 50 100 RBreaker.bon 1000) ⟨0, 0, 0⟩ =
      analyze freshState (inOK 1 50 100 RBreaker.bon 1000) ⟨5000, 3, 2⟩ :=
  ⟨rfl, C7_deterministic_when_timestamp_parses freshState
    (inOK 1 50 100 RBreaker.bon 1000) 1000 10 4 rfl ⟨0, 0, 0⟩ ⟨5000, 3, 2⟩⟩

/-- An input whose `timestamp` key is absent. -/
def x7 : RawInput :=
  { voltage := some (RVal.num 1), frequency := some (RVal.num 50)
    power_flow := some (RVal.num 100), breaker_status := none, timestamp := none }

/-- C7 (counterexample): on an input with a *missing* timestamp field the
call is not a function of input and state — two clock readings drive the
same fresh pipeline into different states (1000 vs 5000 recorded in the
behavioral timestamp FIFO), refuting the claim for that input class. -/
theorem C7_counterexample :
    analyze freshState x7 ⟨1000, 10, 4⟩ ≠ analyze freshState x7 ⟨5000, 11, 4⟩ := by
  have hA : (analyze freshState x7 ⟨1000, 10, 4⟩).2.beh.timestamp_history = [1000] := by
    norm_num +decide [analyze, stateStep, preprocess, validationError, x7,
      handleMissingFields, extractTemporal, computeDeltas, behaviorAnalyze,
      behaviorUpdateHistory, checkReplay, checkOffHours, checkExcessive, checkRapid,
      boundedAppend, freshState, numOrDefault]
  have hB : (analyze freshState x7 ⟨5000, 11, 4⟩).2.beh.timestamp_history = [5000] := by
    norm_num +decide [analyze, stateStep, preprocess, validationError, x7,
      handleMissingFields, extractTemporal, computeDeltas, behaviorAnalyze,
      behaviorUpdateHistory, checkReplay, checkOffHours, checkExcessive, checkRapid,
      boundedAppend, freshState, numOrDefault]
  intro he
  rw [he] at hA
  rw [hB] at hA
  norm_num at hA

/-! ## Claim C3: the Scenario-B single-call run -/

/-- Scenario B input: voltage 1.0, frequency 50.0, power_flow 50.0,
breaker OFF, no timestamp supplied. -/
def x3 : RawInput :=
  { voltage := some (RVal.num 1), frequency := some (RVal.num 50)
    power_flow := some (RVal.num 50), breaker_status := some RBreaker.boff
    timestamp := none }

/-- The clock during the Scenario-B call (a weekday, 10:00). -/
def now3 : TS := ⟨1000, 10, 4⟩

def c3pd : Preprocessed :=
  ⟨1, 50, 50, Brk.boff, RTs.valid 1000 10 4, 0.5, 0.5, 0.25,
   10, 4, false, false, 1000, 0, 0, 0, 0, none⟩

def c3hist : List HRec := [⟨1, 50, 50, RTs.valid 1000 10 4⟩]

def c3pre2 : PreState := ⟨some ⟨1, 50, 50, Brk.boff, RTs.valid 1000 10 4⟩, c3hist⟩

lemma c3_preprocess : preprocess freshState.pre x3 now3 = Except.ok (c3pd, c3pre2) := by
  norm_num +decide [preprocess, validationError, x3, handleMissingFields, numOrDefault,
    extractTemporal, computeDeltas, normField, boundedAppend, now3, freshState,
    c3pd, c3pre2, c3hist]

lemma zScore_zero_var (v m : ℚ) : zScore v m 0 = 0 := by
  unfold zScore
  rw [if_pos (by simp)]

lemma evaluateAnomaly_zero_stats (v : ℚ) : evaluateAnomaly v 0 0 = none := by
  unfold evaluateAnomaly
  rw [zScore_zero_var]
  rw [if_neg (by norm_num), if_neg (by norm_num [deviationPct])]

lemma c3_anomaly :
    anomalyAnalyze c3pd (getRollingStatistics c3hist (·.voltage) 20)
      (getRollingStatistics c3hist (·.frequency) 20)
      (getRollingStatistics c3hist (·.power_flow) 20) =
    ⟨0, 0.95, "All parameters within normal statistical range"⟩ := by
  have hv : getRollingStatistics c3hist (·.voltage) 20 = (0, 0) := by
    norm_num [getRollingStatistics, c3hist]
  have hf : getRollingStatistics c3hist (·.frequency) 20 = (0, 0) := by
    norm_num [getRollingStatistics, c3hist]
  have hp : getRollingStatistics c3hist (·.power_flow) 20 = (0, 0) := by
    norm_num [getRollingStatistics, c3hist]
  rw [hv, hf, hp]
  simp only [anomalyAnalyze, evaluateAnomaly_zero_stats]
  norm_num [List.filterMap_cons, List.filterMap_nil]

lemma c3_physics : physicsAnalyze c3pd =
    ⟨1, 0.95, "CRITICAL: Power flow with breaker OFF"⟩ := by
  norm_num +decide [physicsAnalyze, checkBreakerPower, checkVoltageBounds,
    checkFrequencyBounds, checkCausality, checkImpossibilities, c3pd, abs_eq_max_neg,
    List.filter_cons, List.filter_nil, listMaxD]

lemma c3_behavior : (behaviorAnalyze c3pd freshState.beh).1 =
    ⟨0, 0.75, "Normal operator behavior pattern"⟩ := by
  norm_num +decide [behaviorAnalyze, checkReplay, checkOffHours, checkExcessive,
    checkRapid, behaviorUpdateHistory, c3pd, freshState, abs_eq_max_neg, boundedAppend,
    List.filter_cons, List.filter_nil, List.any_cons, List.any_nil, listMaxD]

lemma c3_fdia : (fdiaAnalyze c3pd c3hist freshState.fdia).1 =
    ⟨0, 0.85, "No FDIA indicators detected"⟩ := by
  have h1 : checkCorrelationMismatch c3hist = (0, "") := by
    simp only [checkCorrelationMismatch]
    rw [if_pos (by norm_num [c3hist])]
  have h2 : checkTemporalConsistency c3pd = (0, "") := by
    norm_num +decide [checkTemporalConsistency, c3pd, abs_eq_max_neg]
  have h3 : checkCoordination c3pd (fdiaUpdateHistory freshState.fdia c3pd) = (0, "") := by
    have hlen : (fdiaUpdateHistory freshState.fdia c3pd).length < 3 := by
      norm_num [fdiaUpdateHistory, boundedAppend, freshState]
    simp only [checkCoordination]
    rw [if_pos hlen]
  simp only [fdiaAnalyze, h1, h2, h3]
  norm_num [List.filter_cons, List.filter_nil]

lemma c3_sim_gt : (0.85 : ℝ) < cosineSim (0.3, 0.3, 0.2) (0.35, 1.05, 0.45) := by
  have h := @lt_cosineSim_of_sq (0.3, 0.3, 0.2) (0.35, 1.05, 0.45) (17/20)
    (by norm_num) (by norm_num [dotQ]) (by norm_num [dotQ, normSqQ])
  refine lt_of_le_of_lt ?_ h
  push_cast
  norm_num

lemma c3_memory : (memoryAnalyze c3pd c3hist freshState.mem).1 =
    ⟨cosineSim (0.3, 0.3, 0.2) (0.35, 1.05, 0.45), 0.702,
     "High similarity to " ++ "FDIA coordinated injection"⟩ := by
  have hcur : featureVector c3pd.voltage c3pd.frequency c3pd.power_flow =
      (0.3, 0.3, 0.2) := by
    norm_num [featureVector, c3pd]
  have hsig : checkAttackSignatures (featureVector c3pd.voltage c3pd.frequency c3pd.power_flow)
      freshState.mem.attack_signatures =
      (cosineSim (0.3, 0.3, 0.2) (0.35, 1.05, 0.45),
       "High similarity to " ++ "FDIA coordinated injection") := by
    rw [hcur]
    show checkAttackSignatures _ initialSignatures = _
    simp only [initialSignatures, checkAttackSignatures]
    rw [if_pos c3_sim_gt]
  have hpat : checkPatternRepetition (featureVector c3pd.voltage c3pd.frequency c3pd.power_flow)
      c3hist = (0, "") := by
    simp only [checkPatternRepetition]
    rw [if_pos (by norm_num [c3hist])]
  have hbase : checkBaselineDeviation (featureVector c3pd.voltage c3pd.frequency c3pd.power_flow)
      (memUpdate freshState.mem c3pd).telemetry_memory = (0, "") := by
    simp only [checkBaselineDeviation]
    rw [if_pos (by norm_num [memUpdate, boundedAppend, freshState, c3pd])]
  have hpos : (0 : ℝ) < cosineSim (0.3, 0.3, 0.2) (0.35, 1.05, 0.45) :=
    lt_trans (by norm_num) c3_sim_gt
  simp only [memoryAnalyze, hsig, hpat, hbase]
  norm_num [List.filter_cons, List.filter_nil, listMaxD, hpos, decide_eq_true_eq,
    memUpdate, boundedAppend, freshState, min_def]
  norm_num at hpos
  rw [if_pos hpos]
  norm_num [listMaxD]

/-- The full Scenario-B record: physics pinned at 1, decision WARNING. -/
lemma c3_eval :
    (analyzeOutput freshState x3 now3).physics_score = 1 ∧
    (analyzeOutput freshState x3 now3).decision = "WARNING" := by
  obtain ⟨e1, e2, e3, e4, e5, e6, e7, e8⟩ := analyzeOutput_ok_proj c3_preprocess
  have hmo : runModels freshState c3pd c3pre2.history =
      (⟨(0 : ℝ), 0.95, "All parameters within normal statistical range"⟩,
       ⟨(0 : ℝ), 0.85, "No FDIA indicators detected"⟩,
       ⟨(1 : ℚ), 0.95, "CRITICAL: Power flow with breaker OFF"⟩,
       ⟨(0 : ℚ), 0.75, "Normal operator behavior pattern"⟩,
       ⟨cosineSim (0.3, 0.3, 0.2) (0.35, 1.05, 0.45), 0.702,
        "High similarity to " ++ "FDIA coordinated injection"⟩) := by
    show (anomalyAnalyze c3pd (getRollingStatistics c3hist (·.voltage) 20)
      (getRollingStatistics c3hist (·.frequency) 20)
      (getRollingStatistics c3hist (·.power_flow) 20),
      (fdiaAnalyze c3pd c3hist freshState.fdia).1,
      physicsAnalyze c3pd, (behaviorAnalyze c3pd freshState.beh).1,
      (memoryAnalyze c3pd c3hist freshState.mem).1) = _
    rw [c3_anomaly, c3_physics, c3_behavior, c3_fdia, c3_memory]
  have hws : weightedSum freshState.weights 0 0 ((1 : ℚ) : ℝ) ((0 : ℚ) : ℝ)
      (cosineSim (0.3, 0.3, 0.2) (0.35, 1.05, 0.45)) =
      0.25 + 0.15 * cosineSim (0.3, 0.3, 0.2) (0.35, 1.05, 0.45) := by
    show weightedSum defaultWeights _ _ _ _ _ = _
    unfold weightedSum defaultWeights
    push_cast
    ring
  have hle1 : cosineSim (0.3, 0.3, 0.2) (0.35, 1.05, 0.45) ≤ 1 := cosineSim_le_one _ _
  have hgt := c3_sim_gt
  have hclamp : clamp01 (0.25 + 0.15 * cosineSim (0.3, 0.3, 0.2) (0.35, 1.05, 0.45)) =
      0.25 + 0.15 * cosineSim (0.3, 0.3, 0.2) (0.35, 1.05, 0.45) :=
    clamp01_eq (by nlinarith) (by nlinarith)
  constructor
  · rw [e3, hmo]
    norm_num
  · rw [e8, hmo]
    simp only
    rw [hws, hclamp]
    unfold getDecision
    rw [if_neg (by nlinarith), if_pos (by nlinarith)]

/-- C3 (amended): a fresh pipeline fed the Scenario-B input
`{voltage 1.0, frequency 50.0, power_flow 50.0, breaker OFF}` returns a
physics score of exactly 1 (so at least 0.95: the breaker-OFF power
tolerance check fires hard) — but the decision is WARNING, not CRITICAL:
the fused risk is 0.25·1 + 0.15·(memory similarity) ∈ (0.3775, 0.4],
below the 0.60 CRITICAL threshold. -/
theorem C3_scenario_b_physics_and_decision :
    (analyzeOutput freshState x3 now3).physics_score = 1 ∧
    0.95 ≤ (analyzeOutput freshState x3 now3).physics_score ∧
    (analyzeOutput freshState x3 now3).decision = "WARNING" := by
  obtain ⟨hp, hd⟩ := c3_eval
  refine ⟨hp, ?_, hd⟩
  rw [hp]
  norm_num

/-- C3 (counterexample): the Scenario-B call does *not* return CRITICAL,
refuting the claimed decision. -/
theorem C3_counterexample :
    (analyzeOutput freshState x3 now3).decision ≠ "CRITICAL" := by
  rw [c3_eval.2]
  decide

/-! ## Claim C5: reset versus fresh construction -/

/-- Twelve valid samples whose breaker alternates, leaving eleven entries
in the behavioral breaker-toggle FIFO. -/
def build5 : List (RawInput × TS) :=
  [(inOK 1 50 100 RBreaker.bon 1000, nowDef), (inOK 1 50 100 RBreaker.boff 1010, nowDef),
   (inOK 1 50 100 RBreaker.bon 1020, nowDef), (inOK 1 50 100 RBreaker.boff 1030, nowDef),
   (inOK 1 50 100 RBreaker.bon 1040, nowDef), (inOK 1 50 100 RBreaker.boff 1050, nowDef),
   (inOK 1 50 100 RBreaker.bon 1060, nowDef), (inOK 1 50 100 RBreaker.boff 1070, nowDef),
   (inOK 1 50 100 RBreaker.bon 1080, nowDef), (inOK 1 50 100 RBreaker.boff 1090, nowDef),
   (inOK 1 50 100 RBreaker.bon 1100, nowDef), (inOK 1 50 100 RBreaker.boff 1110, nowDef)]

/-- The pipeline state right after `reset()` on the `build5` run: every
history is empty *except* the breaker-toggle FIFO, which keeps its eleven
stale timestamps. -/
def s5R : PState :=
  ⟨⟨none, []⟩, [],
   ⟨[], [], [1010, 1020, 1030, 1040, 1050, 1060, 1070, 1080, 1090, 1100, 1110]⟩,
   ⟨[], initialSignatures⟩, defaultWeights, 0⟩

set_option maxHeartbeats 8000000 in
lemma c5_reset : resetState (pipeRun freshState build5) = s5R := by
  norm_num +decide [resetState, pipeRun, build5, s5R, stateStep, preprocess, validationError,
    inOK, handleMissingFields, numOrDefault, extractTemporal, computeDeltas, normField,
    boundedAppend, ts10, nowDef, tsDiff, fdiaUpdateHistory, behaviorAnalyze,
    behaviorUpdateHistory, checkReplay, checkOffHours, checkExcessive, checkRapid,
    memUpdate, freshState, List.filter_cons, List.any_cons, abs_eq_max_neg,
    initialSignatures, defaultWeights]

/-- The first sample after the reset. -/
def x5A : RawInput := inOK 1 50 100 RBreaker.bon 1120

def pd5 : Preprocessed :=
  ⟨1, 50, 100, Brk.bon, ts10 1120, 0.5, 0.5, 0.5, 10, 4, false, false, 1120,
   0, 0, 0, 0, none⟩

def hist5 : List HRec := [⟨1, 50, 100, ts10 1120⟩]

def pre5 : PreState := ⟨some ⟨1, 50, 100, Brk.bon, ts10 1120⟩, hist5⟩

lemma c5_preprocess : preprocess (⟨none, []⟩ : PreState) x5A nowDef =
    Except.ok (pd5, pre5) := by
  norm_num +decide [preprocess, validationError, x5A, inOK, handleMissingFields,
    numOrDefault, extractTemporal, computeDeltas, normField, boundedAppend, ts10, nowDef,
    tsDiff, pd5, pre5, hist5]

lemma c5_behavior_reset : (behaviorAnalyze pd5 s5R.beh).1 =
    ⟨11/20, 0.75, "Excessive breaker toggling"⟩ := by
  norm_num +decide [behaviorAnalyze, checkReplay, checkOffHours, checkExcessive,
    checkRapid, behaviorUpdateHistory, pd5, s5R, abs_eq_max_neg, boundedAppend,
    List.filter_cons, List.filter_nil, List.any_cons, List.any_nil, listMaxD, min_def]

lemma c5_behavior_fresh : (behaviorAnalyze pd5 freshState.beh).1 =
    ⟨0, 0.75, "Normal operator behavior pattern"⟩ := by
  norm_num +decide [behaviorAnalyze, checkReplay, checkOffHours, checkExcessive,
    checkRapid, behaviorUpdateHistory, pd5, freshState, abs_eq_max_neg, boundedAppend,
    List.filter_cons, List.filter_nil, List.any_cons, List.any_nil, listMaxD]

/-- C5: `reset()` does *not* restore a freshly constructed pipeline.  On
the reachable pipeline built by `build5`, resetting and then analyzing one
more valid sample yields a different output record than feeding that
sample to a fresh pipeline: the eleven stale breaker-toggle timestamps
survive the reset and fire the excessive-switching check (behavior score
11/20 = 0.55 instead of 0). -/
theorem C5_reset_diverges_from_fresh :
    (analyzeOutput (resetState (pipeRun freshState build5)) x5A nowDef).behavior_score ≠
      (analyzeOutput freshState x5A nowDef).behavior_score := by
  rw [c5_reset]
  have hR : preprocess s5R.pre x5A nowDef = Except.ok (pd5, pre5) := c5_preprocess
  have hF : preprocess freshState.pre x5A nowDef = Except.ok (pd5, pre5) := c5_preprocess
  obtain ⟨-, -, -, e4R, -, -, -, -⟩ := analyzeOutput_ok_proj hR
  obtain ⟨-, -, -, e4F, -, -, -, -⟩ := analyzeOutput_ok_proj hF
  rw [e4R, e4F]
  have hR2 : (runModels s5R pd5 pre5.history).2.2.2.1 =
      (behaviorAnalyze pd5 s5R.beh).1 := rfl
  have hF2 : (runModels freshState pd5 pre5.history).2.2.2.1 =
      (behaviorAnalyze pd5 freshState.beh).1 := rfl
  rw [hR2, hF2, c5_behavior_reset, c5_behavior_fresh]
  push_cast
  norm_num

end Grid1
